import Mathlib

/-!
Verification of the agentic personal-assistant core: shallow embedding of
the Tool Executor (`src/core/agent/ToolExecutor.ts`), the primary agent
loop (`src/core/agent/AgenticAssistant.ts`), the digest composer and its
health sub-loop (`src/core/digest/MorningDigestService.ts`), and the
persistence repositories they use.

Conventions of the embedding:
* JavaScript numbers are modelled as `JNum` (a finite rational, NaN, or a
  signed infinity); `typeof x === 'number' && Number.isFinite(x)` becomes
  `numOf`.  Claims never depend on the decimal rendering of non-integral
  numbers, so `JSON.stringify` renders those via the rational `num/den`
  form.
* `JSON.stringify` is `Json.serialize`; `undefined` object fields are
  dropped at object-construction time (mirroring stringify's treatment of
  `undefined` members) via `Option`-valued field builders.
* Thrown exceptions / rejected promises are `Except.error msg`.
* Timestamps are milliseconds since the epoch as `Int`; `Date#toISOString`
  is `isoOfMs` (proleptic Gregorian, UTC).  `Date.parse` is embedded for
  the UTC ISO forms `YYYY-MM-DD` and `YYYY-MM-DDTHH:MM:SS(.mmm)?Z`; forms
  whose meaning depends on the host time zone are outside the model.
-/

/-- Embedding of a JavaScript number: finite value, NaN, or an infinity. -/
inductive JNum where
  | finite (q : Rat)
  | nan
  | posInf
  | negInf
deriving DecidableEq, Repr

/-- Number.isFinite. -/
def JNum.isFinite : JNum → Bool
  | .finite _ => true
  | _ => false

/-- JavaScript addition on numbers, as needed by the embedded handlers. -/
def JNum.add : JNum → JNum → JNum
  | .finite a, .finite b => .finite (a + b)
  | .nan, _ => .nan
  | _, .nan => .nan
  | .posInf, .negInf => .nan
  | .negInf, .posInf => .nan
  | .posInf, _ => .posInf
  | _, .posInf => .posInf
  | .negInf, _ => .negInf
  | _, .negInf => .negInf

/-- JavaScript multiplication on numbers (zero times an infinity is NaN). -/
def JNum.mul : JNum → JNum → JNum
  | .finite a, .finite b => .finite (a * b)
  | .nan, _ => .nan
  | _, .nan => .nan
  | .finite a, .posInf => if a = 0 then .nan else if a > 0 then .posInf else .negInf
  | .finite a, .negInf => if a = 0 then .nan else if a > 0 then .negInf else .posInf
  | .posInf, .finite b => if b = 0 then .nan else if b > 0 then .posInf else .negInf
  | .negInf, .finite b => if b = 0 then .nan else if b > 0 then .negInf else .posInf
  | .posInf, .posInf => .posInf
  | .posInf, .negInf => .negInf
  | .negInf, .posInf => .negInf
  | .negInf, .negInf => .posInf

/-- JavaScript subtraction on numbers. -/
def JNum.sub : JNum → JNum → JNum
  | .finite a, .finite b => .finite (a - b)
  | .nan, _ => .nan
  | _, .nan => .nan
  | .posInf, .posInf => .nan
  | .negInf, .negInf => .nan
  | .posInf, _ => .posInf
  | .negInf, _ => .negInf
  | .finite _, .posInf => .negInf
  | .finite _, .negInf => .posInf

/-- Embedding of a JavaScript runtime value as it appears in a tool input
object produced by the model (`Record<string, unknown>`). -/
inductive Value where
  | vnum (n : JNum)
  | vstr (s : String)
  | vbool (b : Bool)
  | vnull
  | varr (xs : List Value)
  | vobj (fields : List (String × Value))

/-- Tool input: the key/value pairs of the model-supplied input object.
Absent keys are simply missing from the list (JS `undefined`). -/
abbrev Input := List (String × Value)

/-- Property access `input.k`: `none` models `undefined`. -/
def getField (input : Input) (k : String) : Option Value :=
  input.lookup k

/-- Nullish coalescing `v ?? d` (catches only `undefined` and `null`). -/
def coalesce (v : Option Value) (d : Value) : Value :=
  match v with
  | none => d
  | some .vnull => d
  | some x => x

/-- Embedding of `ToolExecutor.num`: `typeof v === 'number' &&
Number.isFinite(v) ? v : undefined`. -/
def numOf : Option Value → Option Rat
  | some (.vnum (.finite q)) => some q
  | _ => none

/-- Narrowing `typeof v === 'string' ? v : undefined`. -/
def strOf : Option Value → Option String
  | some (.vstr s) => some s
  | _ => none

/-- String rendering of a finite JS number: exact for integers; claims do
not depend on the rendering of non-integral values, which JS would print
in decimal notation. -/
def ratToString (q : Rat) : String :=
  if q.den = 1 then toString q.num else toString q.num ++ "/" ++ toString q.den

/-- String(n) for a JS number. -/
def JNum.toDisplay : JNum → String
  | .finite q => ratToString q
  | .nan => "NaN"
  | .posInf => "Infinity"
  | .negInf => "-Infinity"

mutual
/-- JavaScript `String(v)` coercion. -/
def jsString : Value → String
  | .vnum n => n.toDisplay
  | .vstr s => s
  | .vbool b => if b then "true" else "false"
  | .vnull => "null"
  | .varr xs => jsStringList xs
  | .vobj _ => "[object Object]"

/-- Array-to-string: elements joined by commas. -/
def jsStringList : List Value → String
  | [] => ""
  | [x] => jsString x
  | x :: xs => jsString x ++ "," ++ jsStringList xs
end

/-- Structured JSON payload, the argument of `JSON.stringify`. -/
inductive Json where
  | jnull
  | jbool (b : Bool)
  | jnum (q : Rat)
  | jstr (s : String)
  | jarr (elems : List Json)
  | jobj (fields : List (String × Json))

/-- Hex digit for low control-character escapes (digit characters for
0-9, lowercase letters for 10-15). -/
def hexDigit (n : Nat) : String :=
  String.singleton (Char.ofNat (if n < 10 then 48 + n else 87 + n))

/-- Escaping of one character inside a JSON string literal, following
JSON.stringify. -/
def escapeChar (c : Char) : String :=
  if c = '"' then "\\\""
  else if c = '\\' then "\\\\"
  else if c = '\n' then "\\n"
  else if c = '\r' then "\\r"
  else if c = '\t' then "\\t"
  else if c = '\x08' then "\\b"
  else if c = '\x0c' then "\\f"
  else if c.toNat < 32 then "\\u00" ++ hexDigit (c.toNat / 16) ++ hexDigit (c.toNat % 16)
  else String.singleton c

/-- Escaped, quoted JSON string literal. -/
def quoteStr (s : String) : String :=
  "\"" ++ String.join (s.toList.map escapeChar) ++ "\""

mutual
/-- Embedding of `JSON.stringify` (compact form, insertion-ordered keys). -/
def Json.serialize : Json → String
  | .jnull => "null"
  | .jbool b => if b then "true" else "false"
  | .jnum q => ratToString q
  | .jstr s => quoteStr s
  | .jarr xs => "[" ++ Json.serializeList xs ++ "]"
  | .jobj fs => "\x7b" ++ Json.serializeFields fs ++ "\x7d"

/-- Comma-joined serialization of array elements. -/
def Json.serializeList : List Json → String
  | [] => ""
  | [x] => Json.serialize x
  | x :: xs => Json.serialize x ++ "," ++ Json.serializeList xs

/-- Comma-joined serialization of object members. -/
def Json.serializeFields : List (String × Json) → String
  | [] => ""
  | [(k, v)] => quoteStr k ++ ":" ++ Json.serialize v
  | (k, v) :: fs => quoteStr k ++ ":" ++ Json.serialize v ++ "," ++ Json.serializeFields fs
end

/-- Object member present only when the value is defined: models the fact
that `JSON.stringify` drops `undefined`-valued members. -/
def optField (k : String) (v : Option Json) : List (String × Json) :=
  match v with
  | none => []
  | some j => [(k, j)]

/-- Optional numeric member. -/
def optNum (k : String) (v : Option Rat) : List (String × Json) :=
  optField k (v.map Json.jnum)

/-- Optional string member. -/
def optStr (k : String) (v : Option String) : List (String × Json) :=
  optField k (v.map Json.jstr)

/-!  Calendar and ISO-8601 machinery (proleptic Gregorian, UTC). -/

/-- Civil date from a day count since 1970-01-01 (Hinnant's algorithm):
returns (year, month, day). -/
def civilFromDays (z0 : Int) : Int × Nat × Nat :=
  let z := z0 + 719468
  let era : Int := z.fdiv 146097
  let doe : Nat := (z.fmod 146097).toNat
  let yoe : Nat := (doe - doe / 1460 + doe / 36524 - doe / 146096) / 365
  let doy : Nat := doe - (365 * yoe + yoe / 4 - yoe / 100)
  let mp : Nat := (5 * doy + 2) / 153
  let d : Nat := doy - (153 * mp + 2) / 5 + 1
  let m : Int := (mp : Int) + (if mp < 10 then 3 else -9)
  let y : Int := (yoe : Int) + era * 400 + (if m ≤ 2 then 1 else 0)
  (y, m.toNat, d)

/-- Day count since 1970-01-01 of a civil date (Hinnant's algorithm). -/
def daysFromCivil (y0 : Int) (m d : Nat) : Int :=
  let y : Int := y0 - (if m ≤ 2 then 1 else 0)
  let era : Int := y.fdiv 400
  let yoe : Nat := (y.fmod 400).toNat
  let doy : Nat := (153 * (m + (if m > 2 then 0 else 12) - 3) + 2) / 5 + d - 1
  let doe : Nat := yoe * 365 + yoe / 4 - yoe / 100 + doy
  era * 146097 + (doe : Int) - 719468

/-- Zero-padded decimal rendering. -/
def padNum (width n : Nat) : String :=
  let s := toString n
  let pad := width - s.length
  String.mk (List.replicate pad '0') ++ s

/-- Year field of an ISO timestamp (4 digits for 0..9999, else the
expanded signed 6-digit form). -/
def isoYear (y : Int) : String :=
  if 0 ≤ y ∧ y < 10000 then padNum 4 y.toNat
  else if y < 0 then "-" ++ padNum 6 (-y).toNat
  else "+" ++ padNum 6 y.toNat

/-- Date part (YYYY-MM-DD) of `new Date(ms).toISOString()`. -/
def isoDateOfMs (ms : Int) : String :=
  let (y, m, d) := civilFromDays (ms.fdiv 86400000)
  isoYear y ++ "-" ++ padNum 2 m ++ "-" ++ padNum 2 d

/-- Full `new Date(ms).toISOString()` (UTC, millisecond precision). -/
def isoOfMs (ms : Int) : String :=
  let msod : Nat := (ms.fmod 86400000).toNat
  isoDateOfMs ms ++ "T" ++ padNum 2 (msod / 3600000) ++ ":" ++
    padNum 2 (msod % 3600000 / 60000) ++ ":" ++ padNum 2 (msod % 60000 / 1000) ++
    "." ++ padNum 3 (msod % 1000) ++ "Z"

/-- Gregorian leap-year test. -/
def isLeap (y : Int) : Bool :=
  y % 4 = 0 ∧ (y % 100 ≠ 0 ∨ y % 400 = 0)

/-- Days in a month. -/
def daysInMonth (y : Int) (m : Nat) : Nat :=
  if m = 2 then (if isLeap y then 29 else 28)
  else if m = 4 ∨ m = 6 ∨ m = 9 ∨ m = 11 then 30
  else 31

/-- Value of a run of decimal digit characters, if all are digits. -/
def digitsVal : List Char → Option Nat
  | [] => some 0
  | c :: cs =>
    if c.isDigit then
      (digitsVal cs).map (fun rest => (c.toNat - 48) * 10 ^ cs.length + rest)
    else none

/-- Parse of the UTC calendar-date form `YYYY-MM-DD` into epoch ms. -/
def parseIsoDateOnly (cs : List Char) : Option Int :=
  match cs with
  | [y1, y2, y3, y4, dash1, m1, m2, dash2, d1, d2] =>
    if dash1 = '-' ∧ dash2 = '-' then
      match digitsVal [y1, y2, y3, y4], digitsVal [m1, m2], digitsVal [d1, d2] with
      | some y, some m, some d =>
        if 1 ≤ m ∧ m ≤ 12 ∧ 1 ≤ d ∧ d ≤ daysInMonth (y : Int) m then
          some (daysFromCivil (y : Int) m d * 86400000)
        else none
      | _, _, _ => none
    else none
  | _ => none

/-- Parse of the UTC time suffix `HH:MM:SS(.mmm)?Z` into ms of day. -/
def parseIsoTime (cs : List Char) : Option Nat :=
  let core : List Char → Option Nat := fun l =>
    match l with
    | [h1, h2, colon1, mi1, mi2, colon2, s1, s2] =>
      if colon1 = ':' ∧ colon2 = ':' then
        match digitsVal [h1, h2], digitsVal [mi1, mi2], digitsVal [s1, s2] with
        | some h, some mi, some s =>
          if h ≤ 23 ∧ mi ≤ 59 ∧ s ≤ 59 then some (h * 3600000 + mi * 60000 + s * 1000)
          else none
        | _, _, _ => none
      else none
    | _ => none
  match cs with
  | [h1, h2, c1, m1, m2, c2, s1, s2, 'Z'] => core [h1, h2, c1, m1, m2, c2, s1, s2]
  | [h1, h2, c1, m1, m2, c2, s1, s2, dot, f1, f2, f3, 'Z'] =>
    if dot = '.' then
      match core [h1, h2, c1, m1, m2, c2, s1, s2], digitsVal [f1, f2, f3] with
      | some t, some f => some (t + f)
      | _, _ => none
    else none
  | _ => none

/-- Embedding of `Date.parse` restricted to the UTC ISO-8601 forms
`YYYY-MM-DD` and `YYYY-MM-DDTHH:MM:SS(.mmm)?Z`.  Other inputs yield
`none` (NaN); forms interpreted in the host's local time zone are outside
the model. -/
def dateParse (s : String) : Option Int :=
  let cs := s.toList
  match parseIsoDateOnly (cs.take 10) with
  | none => none
  | some dayMs =>
    match cs.drop 10 with
    | [] => some dayMs
    | 'T' :: rest =>
      match parseIsoTime rest with
      | some tod => some (dayMs + (tod : Int))
      | none => none
    | _ => none

example : isoDateOfMs 0 = "1970-01-01" := by decide
example : isoOfMs 86400000 = "1970-01-02T00:00:00.000Z" := by decide
example : dateParse "2020-01-01" = some 1577836800000 := by decide
example : isoDateOfMs 1577836800000 = "2020-01-01" := by decide
example : dateParse "banana" = none := by decide

/-! Generic sorted-query machinery standing in for SQL `ORDER BY`. -/

/-- Insertion of an element into a list sorted by the boolean comparator. -/
def insertSorted {α : Type} (le : α → α → Bool) (a : α) : List α → List α
  | [] => [a]
  | b :: bs => if le a b then a :: b :: bs else b :: insertSorted le a bs

/-- Insertion sort by a boolean comparator (used for `ORDER BY`). -/
def sortBy {α : Type} (le : α → α → Bool) : List α → List α
  | [] => []
  | a :: as => insertSorted le a (sortBy le as)

theorem mem_insertSorted {α : Type} (le : α → α → Bool) (a x : α) (l : List α) :
    x ∈ insertSorted le a l ↔ x = a ∨ x ∈ l := by
  induction l with
  | nil => simp [insertSorted]
  | cons b bs ih =>
    simp only [insertSorted]
    by_cases h : le a b = true
    · simp [h]
    · rw [if_neg h]
      simp only [List.mem_cons, ih]
      tauto

theorem mem_sortBy {α : Type} (le : α → α → Bool) (x : α) (l : List α) :
    x ∈ sortBy le l ↔ x ∈ l := by
  induction l with
  | nil => simp [sortBy]
  | cons a as ih => simp [sortBy, mem_insertSorted, ih]

/-! Meal persistence (`src/persistence/repositories/MealRepository.ts`). -/

/-- Key vitamins of a meal (interface `MealVitamins`). -/
structure MealVitamins where
  vitaminA : Option Rat := none
  vitaminC : Option Rat := none
  vitaminD : Option Rat := none
  vitaminE : Option Rat := none
  vitaminK : Option Rat := none
  vitaminB6 : Option Rat := none
  vitaminB12 : Option Rat := none
  folate : Option Rat := none
deriving DecidableEq, Repr

/-- Key minerals of a meal (interface `MealMinerals`). -/
structure MealMinerals where
  iron : Option Rat := none
  calcium : Option Rat := none
  magnesium : Option Rat := none
  zinc : Option Rat := none
  potassium : Option Rat := none
  selenium : Option Rat := none
  iodine : Option Rat := none
deriving DecidableEq, Repr

/-- One row of the `meals` table (type `MealRow`); `none` is SQL NULL.
The `chat_id` column is nullable. -/
structure MealRow where
  id : Nat
  chat_id : Option String
  date : String
  description : String
  estimated_calories : Option Rat := none
  estimated_protein : Option Rat := none
  estimated_carbs : Option Rat := none
  estimated_fat : Option Rat := none
  image_path : Option String := none
  time_eaten : Option Int := none
  meal_type : Option String := none
  created_at : Int
  vitamin_a_mcg : Option Rat := none
  vitamin_c_mg : Option Rat := none
  vitamin_d_mcg : Option Rat := none
  vitamin_e_mg : Option Rat := none
  vitamin_k_mcg : Option Rat := none
  vitamin_b6_mg : Option Rat := none
  vitamin_b12_mcg : Option Rat := none
  folate_mcg : Option Rat := none
  iron_mg : Option Rat := none
  calcium_mg : Option Rat := none
  magnesium_mg : Option Rat := none
  zinc_mg : Option Rat := none
  potassium_mg : Option Rat := none
  selenium_mcg : Option Rat := none
  iodine_mcg : Option Rat := none
deriving DecidableEq, Repr

/-- Domain-level meal record (interface `Meal`). -/
structure Meal where
  id : Nat
  chatId : String
  date : String
  description : String
  estimatedCalories : Option Rat := none
  estimatedProtein : Option Rat := none
  estimatedCarbs : Option Rat := none
  estimatedFat : Option Rat := none
  imagePath : Option String := none
  vitamins : Option MealVitamins := none
  minerals : Option MealMinerals := none
  timeEaten : Int
  mealType : Option String := none
  createdAt : Int
deriving DecidableEq, Repr

/-- Insert payload of `MealRepository.create` (`Omit<Meal,'id'|'createdAt'>`,
with `timeEaten` optional). -/
structure MealInput where
  chatId : String
  date : String
  description : String
  estimatedCalories : Option Rat := none
  estimatedProtein : Option Rat := none
  estimatedCarbs : Option Rat := none
  estimatedFat : Option Rat := none
  imagePath : Option String := none
  vitamins : Option MealVitamins := none
  minerals : Option MealMinerals := none
  timeEaten : Option Int := none
  mealType : Option String := none

/-- State of the `meals` table; `nextId` models the autoincrement rowid. -/
structure MealStore where
  rows : List MealRow := []
  nextId : Nat := 1
deriving Repr

/-- Embedding of `rowToMeal`: NULL chat ids map to the empty string, NULL
numeric columns to absent fields, and the micronutrient columns are
regrouped only when at least one is non-NULL. -/
def rowToMeal (row : MealRow) : Meal :=
  let hasVit := row.vitamin_a_mcg.isSome || row.vitamin_c_mg.isSome ||
    row.vitamin_d_mcg.isSome || row.vitamin_e_mg.isSome || row.vitamin_k_mcg.isSome ||
    row.vitamin_b6_mg.isSome || row.vitamin_b12_mcg.isSome || row.folate_mcg.isSome
  let hasMin := row.iron_mg.isSome || row.calcium_mg.isSome || row.magnesium_mg.isSome ||
    row.zinc_mg.isSome || row.potassium_mg.isSome || row.selenium_mcg.isSome ||
    row.iodine_mcg.isSome
  { id := row.id
    chatId := row.chat_id.getD ""
    date := row.date
    description := row.description
    estimatedCalories := row.estimated_calories
    estimatedProtein := row.estimated_protein
    estimatedCarbs := row.estimated_carbs
    estimatedFat := row.estimated_fat
    imagePath := row.image_path
    vitamins :=
      if hasVit then
        some ⟨row.vitamin_a_mcg, row.vitamin_c_mg, row.vitamin_d_mcg, row.vitamin_e_mg,
          row.vitamin_k_mcg, row.vitamin_b6_mg, row.vitamin_b12_mcg, row.folate_mcg⟩
      else none
    minerals :=
      if hasMin then
        some ⟨row.iron_mg, row.calcium_mg, row.magnesium_mg, row.zinc_mg,
          row.potassium_mg, row.selenium_mcg, row.iodine_mcg⟩
      else none
    timeEaten := row.time_eaten.getD row.created_at
    mealType := match row.meal_type with
      | some t => if t = "" then none else some t
      | none => none
    createdAt := row.created_at }

/-- Embedding of `MealRepository.create`: INSERT of one row, flattening the
micronutrient groups into columns; `timeEaten` defaults to `now`. -/
def MealRepository.create (now : Int) (st : MealStore) (meal : MealInput) : Meal × MealStore :=
  let timeEaten := meal.timeEaten.getD now
  let row : MealRow :=
    { id := st.nextId
      chat_id := some meal.chatId
      date := meal.date
      description := meal.description
      estimated_calories := meal.estimatedCalories
      estimated_protein := meal.estimatedProtein
      estimated_carbs := meal.estimatedCarbs
      estimated_fat := meal.estimatedFat
      image_path := meal.imagePath
      time_eaten := some timeEaten
      meal_type := meal.mealType
      created_at := now
      vitamin_a_mcg := meal.vitamins.bind (·.vitaminA)
      vitamin_c_mg := meal.vitamins.bind (·.vitaminC)
      vitamin_d_mcg := meal.vitamins.bind (·.vitaminD)
      vitamin_e_mg := meal.vitamins.bind (·.vitaminE)
      vitamin_k_mcg := meal.vitamins.bind (·.vitaminK)
      vitamin_b6_mg := meal.vitamins.bind (·.vitaminB6)
      vitamin_b12_mcg := meal.vitamins.bind (·.vitaminB12)
      folate_mcg := meal.vitamins.bind (·.folate)
      iron_mg := meal.minerals.bind (·.iron)
      calcium_mg := meal.minerals.bind (·.calcium)
      magnesium_mg := meal.minerals.bind (·.magnesium)
      zinc_mg := meal.minerals.bind (·.zinc)
      potassium_mg := meal.minerals.bind (·.potassium)
      selenium_mcg := meal.minerals.bind (·.selenium)
      iodine_mcg := meal.minerals.bind (·.iodine) }
  let res : Meal :=
    { id := st.nextId
      chatId := meal.chatId
      date := meal.date
      description := meal.description
      estimatedCalories := meal.estimatedCalories
      estimatedProtein := meal.estimatedProtein
      estimatedCarbs := meal.estimatedCarbs
      estimatedFat := meal.estimatedFat
      imagePath := meal.imagePath
      vitamins := meal.vitamins
      minerals := meal.minerals
      timeEaten := timeEaten
      mealType := meal.mealType
      createdAt := now }
  (res, { rows := st.rows ++ [row], nextId := st.nextId + 1 })

/-- WHERE clause of `MealRepository.getByDate`:
`(chat_id = ? OR chat_id IS NULL) AND date = ?`. -/
def mealDateFilter (chatId date : String) (r : MealRow) : Bool :=
  (r.chat_id = some chatId ∨ r.chat_id = none) ∧ r.date = date

/-- Comparator for `ORDER BY created_at DESC`. -/
def createdAtDesc (r s : MealRow) : Bool :=
  s.created_at ≤ r.created_at

/-- Comparator for `ORDER BY date DESC, created_at DESC`. -/
def dateCreatedDesc (r s : MealRow) : Bool :=
  if r.date = s.date then s.created_at ≤ r.created_at else decide (s.date < r.date)

/-- Embedding of `MealRepository.getByDate`. -/
def MealRepository.getByDate (st : MealStore) (chatId date : String) : List Meal :=
  (sortBy createdAtDesc (st.rows.filter (mealDateFilter chatId date))).map rowToMeal

/-- Embedding of `MealRepository.getByDateRange`:
`(chat_id = ? OR chat_id IS NULL) AND date >= ? AND date <= ?`
ordered by date then creation time, both descending. -/
def MealRepository.getByDateRange (st : MealStore) (chatId startDate endDate : String) :
    List Meal :=
  (sortBy dateCreatedDesc (st.rows.filter (fun r =>
    (r.chat_id = some chatId ∨ r.chat_id = none) ∧ startDate ≤ r.date ∧ r.date ≤ endDate))).map
    rowToMeal

/-- Modelled from the spec: `MealRepository.delete` is called by the
executor (`delete_meal`) but its body is not among the provided sources.
Per the spec, stores are "CRUD keyed by chat identity" and deleting is by
id scoped to the calling chat, mirroring `SleepLogRepository.delete`
(`DELETE ... WHERE id = ? AND chat_id = ?`; returns whether a row was
removed). -/
def MealRepository.delete (st : MealStore) (chatId : String) (mealId : Rat) :
    Bool × MealStore :=
  let hit : MealRow → Bool := fun r => (r.id : Rat) = mealId ∧ r.chat_id = some chatId
  (st.rows.any hit, { st with rows := st.rows.filter (fun r => ¬ hit r) })

/-- Modelled from the spec: `MealRepository.deleteLast` is called by the
executor (`delete_meal` without an id, "delete most recent") but its body
is not among the provided sources.  Mirrors `SleepLogRepository.deleteLast`:
the chat's most recent row (date, then creation time) is removed and
returned, or `none` when the chat has no rows. -/
def MealRepository.deleteLast (st : MealStore) (chatId : String) :
    Option Meal × MealStore :=
  match sortBy dateCreatedDesc (st.rows.filter (fun r => r.chat_id = some chatId)) with
  | [] => (none, st)
  | row :: _ =>
    (some (rowToMeal row), { st with rows := st.rows.filter (fun r => ¬ r.id = row.id) })

/-- Partial update payload of `MealRepository.update`. -/
structure MealUpdate where
  description : Option String := none
  date : Option String := none
  estimatedCalories : Option Rat := none
  estimatedProtein : Option Rat := none
  estimatedCarbs : Option Rat := none
  estimatedFat : Option Rat := none
  mealType : Option String := none
  timeEaten : Option Int := none

/-- Application of a partial meal update to a row (only provided fields
change; the chat id is never touched). -/
def applyMealUpdate (p : MealUpdate) (r : MealRow) : MealRow :=
  { r with
    description := p.description.getD r.description
    date := p.date.getD r.date
    estimated_calories := p.estimatedCalories.orElse (fun _ => r.estimated_calories)
    estimated_protein := p.estimatedProtein.orElse (fun _ => r.estimated_protein)
    estimated_carbs := p.estimatedCarbs.orElse (fun _ => r.estimated_carbs)
    estimated_fat := p.estimatedFat.orElse (fun _ => r.estimated_fat)
    meal_type := p.mealType.orElse (fun _ => r.meal_type)
    time_eaten := p.timeEaten.orElse (fun _ => r.time_eaten) }

/-- Modelled from the spec: `MealRepository.update` is called by the
executor (`update_meal`) but its body is not among the provided sources.
Mirrors `SleepLogRepository.update`: only provided fields are written, the
row is selected by id and the calling chat's identity, and the updated
record (or `none` when not found) is returned. -/
def MealRepository.update (st : MealStore) (chatId : String) (mealId : Rat)
    (p : MealUpdate) : Option Meal × MealStore :=
  let hit : MealRow → Bool := fun r => (r.id : Rat) = mealId ∧ r.chat_id = some chatId
  match st.rows.find? hit with
  | none => (none, st)
  | some row =>
    (some (rowToMeal (applyMealUpdate p row)),
      { st with rows := st.rows.map (fun r => if hit r then applyMealUpdate p r else r) })

/-! Sleep persistence (`src/persistence/repositories/SleepLogRepository.ts`). -/

/-- One row of the `sleep_log` table. -/
structure SleepRow where
  id : Nat
  chat_id : String
  date : String
  raw_text : String
  sleep_score : Option Rat := none
  time_slept_minutes : Option Rat := none
  deep_sleep_minutes : Option Rat := none
  rem_sleep_minutes : Option Rat := none
  rhr : Option Rat := none
  hrv : Option Rat := none
  interruptions : Option Rat := none
  created_at : Int
deriving DecidableEq, Repr

/-- Domain sleep entry (interface `SleepLogEntry`); identical to the row
shape here because `chat_id` is not nullable. -/
def rowToEntry (r : SleepRow) : SleepRow := r

/-- Insert payload of `SleepLogRepository.create` (type `SleepLogInput`). -/
structure SleepLogInput where
  chatId : String
  date : String
  rawText : String
  sleepScore : Option Rat := none
  timeSleptMinutes : Option Rat := none
  deepSleepMinutes : Option Rat := none
  remSleepMinutes : Option Rat := none
  rhr : Option Rat := none
  hrv : Option Rat := none
  interruptions : Option Rat := none

/-- State of the `sleep_log` table. -/
structure SleepStore where
  rows : List SleepRow := []
  nextId : Nat := 1
deriving Repr

/-- Embedding of `SleepLogRepository.create`. -/
def SleepLogRepository.create (now : Int) (st : SleepStore) (input : SleepLogInput) :
    SleepRow × SleepStore :=
  let row : SleepRow :=
    { id := st.nextId
      chat_id := input.chatId
      date := input.date
      raw_text := input.rawText
      sleep_score := input.sleepScore
      time_slept_minutes := input.timeSleptMinutes
      deep_sleep_minutes := input.deepSleepMinutes
      rem_sleep_minutes := input.remSleepMinutes
      rhr := input.rhr
      hrv := input.hrv
      interruptions := input.interruptions
      created_at := now }
  (row, { rows := st.rows ++ [row], nextId := st.nextId + 1 })

/-- Comparator for `ORDER BY date DESC, created_at DESC` on sleep rows. -/
def sleepDateCreatedDesc (r s : SleepRow) : Bool :=
  if r.date = s.date then s.created_at ≤ r.created_at else decide (s.date < r.date)

/-- Embedding of `SleepLogRepository.getById`
(`SELECT * ... WHERE id = ? AND chat_id = ?`). -/
def SleepLogRepository.getById (st : SleepStore) (chatId : String) (entryId : Rat) :
    Option SleepRow :=
  st.rows.find? (fun r => (r.id : Rat) = entryId ∧ r.chat_id = chatId)

/-- Embedding of `SleepLogRepository.delete`
(`DELETE ... WHERE id = ? AND chat_id = ?`; reports whether a row went). -/
def SleepLogRepository.delete (st : SleepStore) (chatId : String) (entryId : Rat) :
    Bool × SleepStore :=
  let hit : SleepRow → Bool := fun r => (r.id : Rat) = entryId ∧ r.chat_id = chatId
  (st.rows.any hit, { st with rows := st.rows.filter (fun r => ¬ hit r) })

/-- Embedding of `SleepLogRepository.deleteLast`: the chat's most recent
row (date, then creation time, descending) is removed and returned. -/
def SleepLogRepository.deleteLast (st : SleepStore) (chatId : String) :
    Option SleepRow × SleepStore :=
  match sortBy sleepDateCreatedDesc (st.rows.filter (fun r => r.chat_id = chatId)) with
  | [] => (none, st)
  | row :: _ =>
    (some (rowToEntry row), { st with rows := st.rows.filter (fun r => ¬ r.id = row.id) })

/-- Partial update payload of `SleepLogRepository.update`. -/
structure SleepUpdate where
  rawText : Option String := none
  date : Option String := none
  sleepScore : Option Rat := none
  timeSleptMinutes : Option Rat := none
  deepSleepMinutes : Option Rat := none
  remSleepMinutes : Option Rat := none
  rhr : Option Rat := none
  hrv : Option Rat := none
  interruptions : Option Rat := none

/-- Application of a partial sleep update to a row (only provided fields
change; the chat id is never touched). -/
def applySleepUpdate (p : SleepUpdate) (r : SleepRow) : SleepRow :=
  { r with
    raw_text := p.rawText.getD r.raw_text
    date := p.date.getD r.date
    sleep_score := p.sleepScore.orElse (fun _ => r.sleep_score)
    time_slept_minutes := p.timeSleptMinutes.orElse (fun _ => r.time_slept_minutes)
    deep_sleep_minutes := p.deepSleepMinutes.orElse (fun _ => r.deep_sleep_minutes)
    rem_sleep_minutes := p.remSleepMinutes.orElse (fun _ => r.rem_sleep_minutes)
    rhr := p.rhr.orElse (fun _ => r.rhr)
    hrv := p.hrv.orElse (fun _ => r.hrv)
    interruptions := p.interruptions.orElse (fun _ => r.interruptions) }

/-- Embedding of `SleepLogRepository.update`: row selected by id and chat,
only provided fields written, updated row returned (`none` if missing). -/
def SleepLogRepository.update (st : SleepStore) (chatId : String) (entryId : Rat)
    (p : SleepUpdate) : Option SleepRow × SleepStore :=
  let hit : SleepRow → Bool := fun r => (r.id : Rat) = entryId ∧ r.chat_id = chatId
  match st.rows.find? hit with
  | none => (none, st)
  | some row =>
    (some (applySleepUpdate p row),
      { st with rows := st.rows.map (fun r => if hit r then applySleepUpdate p r else r) })

/-! Health-profile persistence
(`src/persistence/repositories/HealthProfileRepository.ts`). -/

/-- One row of `user_health_profiles` (one per chat id). -/
structure HealthProfileRow where
  chat_id : String
  height_cm : Option Rat := none
  weight_kg : Option Rat := none
  gender : Option String := none
  age : Option Rat := none
  updated_at : Int
deriving DecidableEq, Repr

/-- Embedding of `HealthProfileRepository.get`. -/
def HealthProfileRepository.get (rows : List HealthProfileRow) (chatId : String) :
    Option HealthProfileRow :=
  rows.find? (fun r => r.chat_id = chatId)

/-- Embedding of `HealthProfileRepository.upsert`: provided fields replace,
missing fields are preserved from the existing row; insert on first use. -/
def HealthProfileRepository.upsert (now : Int) (rows : List HealthProfileRow)
    (chatId : String) (heightCm weightKg : Option Rat) (gender : Option String)
    (age : Option Rat) : HealthProfileRow × List HealthProfileRow :=
  let existing := HealthProfileRepository.get rows chatId
  let merged : HealthProfileRow :=
    { chat_id := chatId
      height_cm := heightCm.orElse (fun _ => existing.bind (·.height_cm))
      weight_kg := weightKg.orElse (fun _ => existing.bind (·.weight_kg))
      gender := gender.orElse (fun _ => existing.bind (·.gender))
      age := age.orElse (fun _ => existing.bind (·.age))
      updated_at := now }
  match existing with
  | some _ => (merged, rows.map (fun r => if r.chat_id = chatId then merged else r))
  | none => (merged, rows ++ [merged])

/-! User preferences. -/

/-- Modelled from the spec: the deployed `UserPreferencesRepository` row
carries stored coordinates (`setLocation` writes `lat`/`lon` and the digest
reads `prefs?.lat`/`prefs?.lon`), but the repository revision with those
columns is not among the provided sources.  Per the spec the store is CRUD
keyed by chat identity returning typed records or null. -/
structure PrefRow where
  chat_id : String
  lat : Option JNum := none
  lon : Option JNum := none
deriving DecidableEq, Repr

/-- Modelled from the spec: preference lookup keyed by chat id. -/
def UserPreferencesRepository.get (rows : List PrefRow) (chatId : String) :
    Option PrefRow :=
  rows.find? (fun r => r.chat_id = chatId)

/-- Modelled from the spec: upsert of the calling chat's coordinates. -/
def UserPreferencesRepository.upsert (rows : List PrefRow) (chatId : String)
    (lat lon : JNum) : List PrefRow :=
  match UserPreferencesRepository.get rows chatId with
  | some _ =>
    rows.map (fun r => if r.chat_id = chatId then { r with lat := some lat, lon := some lon } else r)
  | none => rows ++ [{ chat_id := chatId, lat := some lat, lon := some lon }]

/-- The mutable persistent state visible to the Tool Executor: the four
chat-keyed stores, plus the log of outbound chat messages produced by
fire-and-forget digest triggers. -/
structure Stores where
  meals : MealStore := {}
  sleep : SleepStore := {}
  health : List HealthProfileRow := []
  prefs : List PrefRow := []
  sent : List (String × String) := []

/-! Port payload types consumed by the Tool Executor (interfaces in
`src/ports/`).  Adapter internals are external collaborators; only the
shapes the executor reads are modelled. -/

/-- Newsletter returned by the email port. -/
structure Newsletter where
  subject : String
  sender : String
  receivedAt : Int
  body : String

/-- Sleep record returned by the sleep-data port (interface `SleepData`;
`id` is attached by the stored-sleep adapter and may be absent). -/
structure SleepData where
  id : Option Rat := none
  date : String
  sleepScore : Rat
  deepSleepMinutes : Rat
  remSleepMinutes : Rat
  timeAsleep : Rat
  timeToBed : String
  timeAwake : String
  hrv : Rat
  restingHeartRate : Rat
  interruptions : Option Rat := none
  predictedEnergyPeak : Option String := none
  predictedEnergyTrough : Option String := none
  rawText : Option String := none

/-- Note body returned by the notes port (interface `NoteContent`). -/
structure NoteContent where
  title : String
  path : String
  content : String

/-- Note listing entry (interface `NoteListItem`). -/
structure NoteListItem where
  title : String
  path : String
  modifiedAt : Option Int := none

/-- Category entry (interface `NoteCategory`). -/
structure NoteCategory where
  path : String
  name : String
  tags : List String

/-- Task entry (interface `Task`, as read by the executor). -/
structure TaskItem where
  title : String
  status : String
  path : String
  project : Option String := none

/-- Full-text search hit. -/
structure SearchHit where
  title : String
  excerpt : String
  path : String

/-- HTTP response as read by `fetchUrl` (`ok`, `status`, body text). -/
structure FetchResp where
  status : Nat
  ok : Bool
  body : String

/-- Stored chat-history message. -/
structure HistMsg where
  role : String
  content : String
  timestamp : Int

/-- Behaviour of the executor's injected collaborators
(`ToolExecutorDependencies`): each port call either returns a value or
throws (`Except.error`).  `extractTitle`/`extractTextFromHtml` are the
executor's pure regex pipelines over HTML, treated as opaque text
transformations (no claim concerns their output).  `digestTrigger` is the
optional morning-digest service: invoked fire-and-forget by `logSleep`, it
only produces outbound chat messages. -/
structure ToolEnv where
  now : Int
  notesCreate : String → String → String → List String → Except String String
  notesAppendDaily : String → Except String Unit
  notesSearch : String → Except String (List SearchHit)
  notesTasks : Option Value → Option String → Except String (List TaskItem)
  notesCategories : Unit → Except String (List NoteCategory)
  notesRead : String → Except String (Option NoteContent)
  notesReadDaily : Option String → Except String (Option NoteContent)
  notesList : Option String → Except String (List NoteListItem)
  notesUpdate : String → String → Except String Unit
  emailNewsletters : JNum → Except String (List Newsletter)
  sleepLastNight : String → Except String (Option SleepData)
  sleepRange : String → String → String → Except String (List SleepData)
  fetch : String → Except String FetchResp
  extractTitle : String → String
  extractTextFromHtml : String → String
  getConversation : String → Rat → Rat → List HistMsg
  digestTrigger : Option (String → Except String (List (String × String)))

/-- Result of one handler: the payload to stringify (or a thrown error)
plus the state after the handler's writes. -/
abbrev HandlerOut := Except String Json × Stores

/-- JavaScript `Math.round` (half-up) on a rational. -/
def jsRound (q : Rat) : Int :=
  ⌊q + 1 / 2⌋

/-- Truncation toward zero (JS number-to-integer conversion in `%`). -/
def ratTrunc (q : Rat) : Int :=
  if 0 ≤ q then ⌊q⌋ else -⌊-q⌋

/-- JavaScript `%` remainder on rationals. -/
def jsMod (a b : Rat) : Rat :=
  a - b * ratTrunc (a / b)

/-- Rendering of `JSON.stringify` for a possibly non-finite number (NaN
and infinities serialize as `null`). -/
def jnumJson (n : JNum) : Json :=
  match n with
  | .finite q => .jnum q
  | _ => .jnull

/-- Whitespace test of JavaScript `String.prototype.trim`. -/
def isJsWhitespace (c : Char) : Bool :=
  c = ' ' ∨ c = '\t' ∨ c = '\n' ∨ c = '\r' ∨ c = '\x0b' ∨ c = '\x0c' ∨ c = '\u00a0' ∨
    c = '\u2028' ∨ c = '\u2029' ∨ c = '\ufeff'

/-- JavaScript `trim`: strip leading and trailing whitespace. -/
def jsTrim (s : String) : String :=
  String.mk ((((s.toList.dropWhile isJsWhitespace).reverse).dropWhile isJsWhitespace).reverse)

/-- The `time_eaten` value computed by `logMeal`: a parseable provided
string wins, otherwise `Date.now()`. -/
def timeEatenOf (input : Input) (now : Int) : Int :=
  match strOf (getField input "time_eaten") with
  | some s =>
    if jsTrim s ≠ "" then
      match dateParse s with
      | some parsed => parsed
      | none => now
    else now
  | none => now

/-- Micronutrient extraction of `logMeal`: the vitamins group exists iff at
least one vitamin argument is a finite number. -/
def vitaminsOfInput (input : Input) : Option MealVitamins :=
  let v : MealVitamins :=
    { vitaminA := numOf (getField input "vitamin_a_mcg")
      vitaminC := numOf (getField input "vitamin_c_mg")
      vitaminD := numOf (getField input "vitamin_d_mcg")
      vitaminE := numOf (getField input "vitamin_e_mg")
      vitaminK := numOf (getField input "vitamin_k_mcg")
      vitaminB6 := numOf (getField input "vitamin_b6_mg")
      vitaminB12 := numOf (getField input "vitamin_b12_mcg")
      folate := numOf (getField input "folate_mcg") }
  if v.vitaminA.isSome || v.vitaminC.isSome || v.vitaminD.isSome || v.vitaminE.isSome ||
      v.vitaminK.isSome || v.vitaminB6.isSome || v.vitaminB12.isSome || v.folate.isSome then
    some v
  else none

/-- Mineral extraction of `logMeal`, same pattern as the vitamins. -/
def mineralsOfInput (input : Input) : Option MealMinerals :=
  let m : MealMinerals :=
    { iron := numOf (getField input "iron_mg")
      calcium := numOf (getField input "calcium_mg")
      magnesium := numOf (getField input "magnesium_mg")
      zinc := numOf (getField input "zinc_mg")
      potassium := numOf (getField input "potassium_mg")
      selenium := numOf (getField input "selenium_mcg")
      iodine := numOf (getField input "iodine_mcg") }
  if m.iron.isSome || m.calcium.isSome || m.magnesium.isSome || m.zinc.isSome ||
      m.potassium.isSome || m.selenium.isSome || m.iodine.isSome then
    some m
  else none

/-- JSON object for a vitamins group (stringify drops absent members). -/
def vitaminsJson (v : MealVitamins) : Json :=
  .jobj (optNum "vitaminA" v.vitaminA ++ optNum "vitaminC" v.vitaminC ++
    optNum "vitaminD" v.vitaminD ++ optNum "vitaminE" v.vitaminE ++
    optNum "vitaminK" v.vitaminK ++ optNum "vitaminB6" v.vitaminB6 ++
    optNum "vitaminB12" v.vitaminB12 ++ optNum "folate" v.folate)

/-- JSON object for a minerals group. -/
def mineralsJson (m : MealMinerals) : Json :=
  .jobj (optNum "iron" m.iron ++ optNum "calcium" m.calcium ++
    optNum "magnesium" m.magnesium ++ optNum "zinc" m.zinc ++
    optNum "potassium" m.potassium ++ optNum "selenium" m.selenium ++
    optNum "iodine" m.iodine)

/-- Embedding of `ToolExecutor.logMeal`. -/
def ToolExecutor.logMeal (env : ToolEnv) (chatId : String) (input : Input)
    (st : Stores) : HandlerOut :=
  let description := jsString (coalesce (getField input "description") (.vstr ""))
  let calories := numOf (getField input "calories")
  let protein := numOf (getField input "protein")
  let carbs := numOf (getField input "carbs")
  let fat := numOf (getField input "fat")
  let mealType := strOf (getField input "meal_type")
  let timeEaten := timeEatenOf input env.now
  let date := isoDateOfMs timeEaten
  let (meal, meals') := MealRepository.create env.now st.meals
    { chatId := chatId
      date := date
      description := description
      estimatedCalories := calories
      estimatedProtein := protein
      estimatedCarbs := carbs
      estimatedFat := fat
      timeEaten := some timeEaten
      mealType := mealType
      vitamins := vitaminsOfInput input
      minerals := mineralsOfInput input }
  let mealFields : List (String × Json) :=
    [("id", .jnum (meal.id : Rat)), ("description", .jstr meal.description)] ++
    optStr "meal_type" meal.mealType ++
    [("time_eaten", .jstr (isoOfMs timeEaten))] ++
    optNum "calories" meal.estimatedCalories ++
    optNum "protein" meal.estimatedProtein ++
    optNum "carbs" meal.estimatedCarbs ++
    optNum "fat" meal.estimatedFat ++
    [("date", .jstr meal.date)] ++
    optField "vitamins" (meal.vitamins.map vitaminsJson) ++
    optField "minerals" (meal.minerals.map mineralsJson)
  (.ok (.jobj [("success", .jbool true), ("meal", .jobj mealFields)]),
    { st with meals := meals' })

/-- Members of `ToolExecutor.mealToSummary` (id, description and the four
macro fields, plus the micronutrient groups when present). -/
def mealSummaryFields (m : Meal) : List (String × Json) :=
  [("id", .jnum (m.id : Rat)), ("description", .jstr m.description)] ++
  optNum "calories" m.estimatedCalories ++
  optNum "protein" m.estimatedProtein ++
  optNum "carbs" m.estimatedCarbs ++
  optNum "fat" m.estimatedFat ++
  optField "vitamins" (m.vitamins.map vitaminsJson) ++
  optField "minerals" (m.minerals.map mineralsJson)

/-- Embedding of `ToolExecutor.mealToSummary`. -/
def mealToSummary (m : Meal) : Json :=
  .jobj (mealSummaryFields m)

/-- One key of `ToolExecutor.sumMicros`: accumulate `(acc ?? 0) + x` over
the meals where the key is present; stays absent if never present. -/
def sumMicroKey (get : Meal → Option Rat) (meals : List Meal) : Option Rat :=
  meals.foldl
    (fun acc m =>
      match get m with
      | some x => some (acc.getD 0 + x)
      | none => acc)
    none

/-- Vitamin half of `ToolExecutor.sumMicros`. -/
def sumMicrosVitamins (meals : List Meal) : Option MealVitamins :=
  let v : MealVitamins :=
    { vitaminA := sumMicroKey (fun m => m.vitamins.bind (·.vitaminA)) meals
      vitaminC := sumMicroKey (fun m => m.vitamins.bind (·.vitaminC)) meals
      vitaminD := sumMicroKey (fun m => m.vitamins.bind (·.vitaminD)) meals
      vitaminE := sumMicroKey (fun m => m.vitamins.bind (·.vitaminE)) meals
      vitaminK := sumMicroKey (fun m => m.vitamins.bind (·.vitaminK)) meals
      vitaminB6 := sumMicroKey (fun m => m.vitamins.bind (·.vitaminB6)) meals
      vitaminB12 := sumMicroKey (fun m => m.vitamins.bind (·.vitaminB12)) meals
      folate := sumMicroKey (fun m => m.vitamins.bind (·.folate)) meals }
  if v.vitaminA.isSome || v.vitaminC.isSome || v.vitaminD.isSome || v.vitaminE.isSome ||
      v.vitaminK.isSome || v.vitaminB6.isSome || v.vitaminB12.isSome || v.folate.isSome then
    some v
  else none

/-- Mineral half of `ToolExecutor.sumMicros`. -/
def sumMicrosMinerals (meals : List Meal) : Option MealMinerals :=
  let m : MealMinerals :=
    { iron := sumMicroKey (fun x => x.minerals.bind (·.iron)) meals
      calcium := sumMicroKey (fun x => x.minerals.bind (·.calcium)) meals
      magnesium := sumMicroKey (fun x => x.minerals.bind (·.magnesium)) meals
      zinc := sumMicroKey (fun x => x.minerals.bind (·.zinc)) meals
      potassium := sumMicroKey (fun x => x.minerals.bind (·.potassium)) meals
      selenium := sumMicroKey (fun x => x.minerals.bind (·.selenium)) meals
      iodine := sumMicroKey (fun x => x.minerals.bind (·.iodine)) meals }
  if m.iron.isSome || m.calcium.isSome || m.magnesium.isSome || m.zinc.isSome ||
      m.potassium.isSome || m.selenium.isSome || m.iodine.isSome then
    some m
  else none

/-- Embedding of `ToolExecutor.getMealsToday`. -/
def ToolExecutor.getMealsToday (env : ToolEnv) (chatId : String) (st : Stores) :
    HandlerOut :=
  let today := isoDateOfMs env.now
  let meals := MealRepository.getByDate st.meals chatId today
  let totalCalories := meals.foldl (fun s m => s + m.estimatedCalories.getD 0) 0
  let totalProtein := meals.foldl (fun s m => s + m.estimatedProtein.getD 0) 0
  let totalCarbs := meals.foldl (fun s m => s + m.estimatedCarbs.getD 0) 0
  let totalFat := meals.foldl (fun s m => s + m.estimatedFat.getD 0) 0
  let totals : Json := .jobj
    ([("calories", .jnum totalCalories), ("protein", .jnum totalProtein),
      ("carbs", .jnum totalCarbs), ("fat", .jnum totalFat)] ++
      optField "vitamins" ((sumMicrosVitamins meals).map vitaminsJson) ++
      optField "minerals" ((sumMicrosMinerals meals).map mineralsJson))
  (.ok (.jobj [("date", .jstr today), ("meals", .jarr (meals.map mealToSummary)),
    ("totals", totals)]), st)

/-- Embedding of `ToolExecutor.getMealsRange`. -/
def ToolExecutor.getMealsRange (chatId : String) (input : Input) (st : Stores) :
    HandlerOut :=
  let startDate := jsString (coalesce (getField input "start_date") (.vstr ""))
  let endDate := jsString (coalesce (getField input "end_date") (.vstr ""))
  let meals := MealRepository.getByDateRange st.meals chatId startDate endDate
  let totalCalories := meals.foldl (fun s m => s + m.estimatedCalories.getD 0) 0
  let totalProtein := meals.foldl (fun s m => s + m.estimatedProtein.getD 0) 0
  let totals : Json := .jobj
    ([("calories", .jnum totalCalories), ("protein", .jnum totalProtein)] ++
      optField "vitamins" ((sumMicrosVitamins meals).map vitaminsJson) ++
      optField "minerals" ((sumMicrosMinerals meals).map mineralsJson))
  (.ok (.jobj [("start_date", .jstr startDate), ("end_date", .jstr endDate),
    ("meal_count", .jnum (meals.length : Rat)),
    ("meals", .jarr (meals.map (fun m => .jobj (mealSummaryFields m ++ [("date", .jstr m.date)])))),
    ("totals", totals)]), st)

/-- Embedding of `ToolExecutor.deleteMeal` (delete by id, else most
recent; failures are reported messages, never throws). -/
def ToolExecutor.deleteMeal (chatId : String) (input : Input) (st : Stores) :
    HandlerOut :=
  match numOf (getField input "meal_id") with
  | some mealId =>
    let (deleted, meals') := MealRepository.delete st.meals chatId mealId
    if ¬ deleted then
      (.ok (.jobj [("success", .jbool false),
        ("message", .jstr "Meal not found or already deleted.")]),
        { st with meals := meals' })
    else
      (.ok (.jobj [("success", .jbool true), ("deleted_meal_id", .jnum mealId),
        ("message", .jstr "Meal deleted.")]), { st with meals := meals' })
  | none =>
    match MealRepository.deleteLast st.meals chatId with
    | (none, meals') =>
      (.ok (.jobj [("success", .jbool false), ("message", .jstr "No meals to delete.")]),
        { st with meals := meals' })
    | (some last, meals') =>
      (.ok (.jobj [("success", .jbool true), ("deleted_meal_id", .jnum (last.id : Rat)),
        ("message", .jstr ("Deleted: " ++ last.description ++ " (" ++ last.date ++ ")."))]),
        { st with meals := meals' })

/-- Embedding of `ToolExecutor.updateMeal`. -/
def ToolExecutor.updateMeal (chatId : String) (input : Input) (st : Stores) :
    HandlerOut :=
  match numOf (getField input "meal_id") with
  | none =>
    (.ok (.jobj [("success", .jbool false), ("message", .jstr "meal_id is required.")]), st)
  | some mealId =>
    let upd : MealUpdate :=
      { description := strOf (getField input "description")
        date := strOf (getField input "date")
        estimatedCalories := numOf (getField input "calories")
        estimatedProtein := numOf (getField input "protein")
        estimatedCarbs := numOf (getField input "carbs")
        estimatedFat := numOf (getField input "fat")
        mealType := strOf (getField input "meal_type")
        timeEaten := (strOf (getField input "time_eaten")).bind dateParse }
    match MealRepository.update st.meals chatId mealId upd with
    | (none, meals') =>
      (.ok (.jobj [("success", .jbool false), ("message", .jstr "Meal not found.")]),
        { st with meals := meals' })
    | (some updated, meals') =>
      (.ok (.jobj [("success", .jbool true), ("meal", mealToSummary updated)]),
        { st with meals := meals' })

/-- BMI member computed by the health-profile handlers when both height
and weight are present and positive: `Math.round((w/(h_m)^2)*10)/10`. -/
def bmiField (heightCm weightKg : Option Rat) : List (String × Json) :=
  match heightCm, weightKg with
  | some h, some w =>
    if h > 0 ∧ w > 0 then
      let heightM := h / 100
      [("bmi", .jnum ((jsRound (w / (heightM * heightM) * 10) : Rat) / 10))]
    else []
  | _, _ => []

/-- Embedding of `ToolExecutor.getHealthProfile`. -/
def ToolExecutor.getHealthProfile (chatId : String) (st : Stores) : HandlerOut :=
  match HealthProfileRepository.get st.health chatId with
  | none =>
    (.ok (.jobj [("found", .jbool false),
      ("message", .jstr "No health profile set. The user can set height, weight, gender, and age with set_health_profile.")]), st)
  | some profile =>
    (.ok (.jobj
      ([("found", .jbool true)] ++
        optNum "height_cm" profile.height_cm ++
        optNum "weight_kg" profile.weight_kg ++
        optStr "gender" profile.gender ++
        optNum "age" profile.age ++
        [("updated_at", .jnum (profile.updated_at : Rat))] ++
        bmiField profile.height_cm profile.weight_kg)), st)

/-- Embedding of `ToolExecutor.setHealthProfile`. -/
def ToolExecutor.setHealthProfile (env : ToolEnv) (chatId : String) (input : Input)
    (st : Stores) : HandlerOut :=
  let heightCm := numOf (getField input "height_cm")
  let weightKg := numOf (getField input "weight_kg")
  let gender :=
    match strOf (getField input "gender") with
    | some s => if jsTrim s ≠ "" then some (jsTrim s) else none
    | none => none
  let age := numOf (getField input "age")
  if heightCm = none ∧ weightKg = none ∧ gender = none ∧ age = none then
    (.ok (.jobj [("success", .jbool false),
      ("message", .jstr "Provide at least one of: height_cm, weight_kg, gender, age.")]), st)
  else
    let (profile, health') :=
      HealthProfileRepository.upsert env.now st.health chatId heightCm weightKg gender age
    (.ok (.jobj
      ([("success", .jbool true)] ++
        optNum "height_cm" profile.height_cm ++
        optNum "weight_kg" profile.weight_kg ++
        optStr "gender" profile.gender ++
        optNum "age" profile.age ++
        bmiField profile.height_cm profile.weight_kg)),
      { st with health := health' })

/-- Embedding of `ToolExecutor.getNewsletters`.  The `since` timestamp is
`Date.now() - since_hours*3600000` in JS arithmetic; a non-finite result
makes the later `since.toISOString()` throw `Invalid time value`, which
`execute`'s catch converts into an error payload. -/
def ToolExecutor.getNewsletters (env : ToolEnv) (input : Input) (st : Stores) :
    HandlerOut :=
  let sinceHours : JNum :=
    match getField input "since_hours" with
    | some (.vnum n) => n
    | _ => .finite 24
  let since : JNum := JNum.sub (.finite env.now) (JNum.mul sinceHours (.finite 3600000))
  match env.emailNewsletters since with
  | .error m => (.error m, st)
  | .ok newsletters =>
    match since with
    | .finite q =>
      let sinceMs := ratTrunc q
      if sinceMs.natAbs > 8640000000000000 then (.error "Invalid time value", st) else
      (.ok (.jobj [("since", .jstr (isoOfMs sinceMs)),
        ("count", .jnum (newsletters.length : Rat)),
        ("newsletters", .jarr (newsletters.map (fun n => .jobj
          [("subject", .jstr n.subject), ("sender", .jstr n.sender),
           ("received_at", .jstr (isoOfMs n.receivedAt)),
           ("body_preview", .jstr (n.body.take 500 ++
             (if n.body.length > 500 then "..." else "")))])))]), st)
    | _ => (.error "Invalid time value", st)

/-- Sleep-entry members of the `logSleep` success payload: `id` and `date`
always, then each metric only when present (`time_slept` is rendered as
`"XXh YYm"`). -/
def sleepEntryFields (entry : SleepRow) : List (String × Json) :=
  [("id", .jnum (entry.id : Rat)), ("date", .jstr entry.date)] ++
  optNum "sleep_score" entry.sleep_score ++
  optField "time_slept" (entry.time_slept_minutes.map (fun m =>
    .jstr (toString ⌊m / 60⌋ ++ "h " ++ ratToString (jsMod m 60) ++ "m"))) ++
  optNum "deep_sleep_minutes" entry.deep_sleep_minutes ++
  optNum "rem_sleep_minutes" entry.rem_sleep_minutes ++
  optNum "rhr" entry.rhr ++
  optNum "hrv" entry.hrv ++
  optNum "interruptions" entry.interruptions

/-- Embedding of `ToolExecutor.logSleep`: persists the entry under the
bound chat id, then fires the morning-digest trigger without awaiting it —
a trigger failure is logged and dropped, never propagated. -/
def ToolExecutor.logSleep (env : ToolEnv) (chatId : String) (input : Input)
    (st : Stores) : HandlerOut :=
  let rawText := jsString (coalesce (getField input "raw_text") (.vstr ""))
  let date := jsString (coalesce (getField input "date") (.vstr (isoDateOfMs env.now)))
  let (entry, sleep') := SleepLogRepository.create env.now st.sleep
    { chatId := chatId
      date := date
      rawText := rawText
      sleepScore := numOf (getField input "sleep_score")
      timeSleptMinutes := numOf (getField input "time_slept_minutes")
      deepSleepMinutes := numOf (getField input "deep_sleep_minutes")
      remSleepMinutes := numOf (getField input "rem_sleep_minutes")
      rhr := numOf (getField input "rhr")
      hrv := numOf (getField input "hrv")
      interruptions := numOf (getField input "interruptions") }
  let sentExtra : List (String × String) :=
    match env.digestTrigger with
    | some trigger =>
      match trigger chatId with
      | .ok msgs => msgs
      | .error _ => []
    | none => []
  (.ok (.jobj [("success", .jbool true), ("entry", .jobj (sleepEntryFields entry))]),
    { st with sleep := sleep', sent := st.sent ++ sentExtra })

/-- Embedding of `ToolExecutor.setLocation` (`typeof === 'number'` only —
no finiteness check — and both coordinates required). -/
def ToolExecutor.setLocation (chatId : String) (input : Input) (st : Stores) :
    HandlerOut :=
  let lat : Option JNum :=
    match getField input "lat" with
    | some (.vnum n) => some n
    | _ => none
  let lon : Option JNum :=
    match getField input "lon" with
    | some (.vnum n) => some n
    | _ => none
  match lat, lon with
  | some la, some lo =>
    (.ok (.jobj [("success", .jbool true), ("lat", jnumJson la), ("lon", jnumJson lo),
      ("message", .jstr "Location saved. You will now get weather in your morning digest.")]),
      { st with prefs := UserPreferencesRepository.upsert st.prefs chatId la lo })
  | _, _ =>
    (.ok (.jobj [("success", .jbool false),
      ("message", .jstr "Both lat and lon are required as numbers.")]), st)

/-- Embedding of `ToolExecutor.getSleepLastNight`. -/
def ToolExecutor.getSleepLastNight (env : ToolEnv) (chatId : String) (st : Stores) :
    HandlerOut :=
  match env.sleepLastNight chatId with
  | .error m => (.error m, st)
  | .ok none =>
    (.ok (.jobj [("found", .jbool false),
      ("message", .jstr "No sleep data found for last night")]), st)
  | .ok (some s) =>
    (.ok (.jobj [("found", .jbool true), ("sleep", .jobj
      (optNum "id" s.id ++
        [("date", .jstr s.date), ("score", .jnum s.sleepScore),
         ("deep_sleep_minutes", .jnum s.deepSleepMinutes),
         ("rem_sleep_minutes", .jnum s.remSleepMinutes),
         ("time_asleep", .jnum s.timeAsleep),
         ("time_to_bed", .jstr s.timeToBed),
         ("time_awake", .jstr s.timeAwake),
         ("hrv", .jnum s.hrv),
         ("resting_heart_rate", .jnum s.restingHeartRate)] ++
        optStr "predicted_energy_peak" s.predictedEnergyPeak ++
        optStr "predicted_energy_trough" s.predictedEnergyTrough))]), st)

/-- Embedding of `ToolExecutor.getSleepRange`. -/
def ToolExecutor.getSleepRange (env : ToolEnv) (chatId : String) (input : Input)
    (st : Stores) : HandlerOut :=
  let startDate := jsString (coalesce (getField input "start_date") (.vstr ""))
  let endDate := jsString (coalesce (getField input "end_date") (.vstr ""))
  match env.sleepRange startDate endDate chatId with
  | .error m => (.error m, st)
  | .ok sleepData =>
    if sleepData.length = 0 then
      (.ok (.jobj [("found", .jbool false),
        ("message", .jstr "No sleep data found for the specified range")]), st)
    else
      let avgScore := (sleepData.foldl (fun s x => s + x.sleepScore) 0) / (sleepData.length : Rat)
      let totalDeep := sleepData.foldl (fun s x => s + x.deepSleepMinutes) 0
      let totalRem := sleepData.foldl (fun s x => s + x.remSleepMinutes) 0
      (.ok (.jobj [("found", .jbool true),
        ("start_date", .jstr startDate), ("end_date", .jstr endDate),
        ("nights", .jnum (sleepData.length : Rat)),
        ("average_score", .jnum (jsRound avgScore : Rat)),
        ("total_deep_sleep_minutes", .jnum totalDeep),
        ("total_rem_sleep_minutes", .jnum totalRem),
        ("sessions", .jarr (sleepData.map (fun s => .jobj
          (optNum "id" s.id ++
            [("date", .jstr s.date), ("score", .jnum s.sleepScore),
             ("deep_minutes", .jnum s.deepSleepMinutes),
             ("rem_minutes", .jnum s.remSleepMinutes)]))))]), st)

/-- Embedding of `ToolExecutor.deleteSleep`. -/
def ToolExecutor.deleteSleep (chatId : String) (input : Input) (st : Stores) :
    HandlerOut :=
  match numOf (getField input "sleep_id") with
  | some sleepId =>
    let (deleted, sleep') := SleepLogRepository.delete st.sleep chatId sleepId
    if ¬ deleted then
      (.ok (.jobj [("success", .jbool false),
        ("message", .jstr "Sleep entry not found or already deleted.")]),
        { st with sleep := sleep' })
    else
      (.ok (.jobj [("success", .jbool true), ("deleted_sleep_id", .jnum sleepId),
        ("message", .jstr "Sleep entry deleted.")]), { st with sleep := sleep' })
  | none =>
    match SleepLogRepository.deleteLast st.sleep chatId with
    | (none, sleep') =>
      (.ok (.jobj [("success", .jbool false),
        ("message", .jstr "No sleep entries to delete.")]), { st with sleep := sleep' })
    | (some last, sleep') =>
      (.ok (.jobj [("success", .jbool true), ("deleted_sleep_id", .jnum (last.id : Rat)),
        ("message", .jstr ("Deleted sleep entry for " ++ last.date ++ "."))]),
        { st with sleep := sleep' })

/-- Embedding of `ToolExecutor.updateSleep`. -/
def ToolExecutor.updateSleep (chatId : String) (input : Input) (st : Stores) :
    HandlerOut :=
  match numOf (getField input "sleep_id") with
  | none =>
    (.ok (.jobj [("success", .jbool false), ("message", .jstr "sleep_id is required.")]), st)
  | some sleepId =>
    let upd : SleepUpdate :=
      { rawText := strOf (getField input "raw_text")
        date := strOf (getField input "date")
        sleepScore := numOf (getField input "sleep_score")
        timeSleptMinutes := numOf (getField input "time_slept_minutes")
        deepSleepMinutes := numOf (getField input "deep_sleep_minutes")
        remSleepMinutes := numOf (getField input "rem_sleep_minutes")
        rhr := numOf (getField input "rhr")
        hrv := numOf (getField input "hrv")
        interruptions := numOf (getField input "interruptions") }
    match SleepLogRepository.update st.sleep chatId sleepId upd with
    | (none, sleep') =>
      (.ok (.jobj [("success", .jbool false), ("message", .jstr "Sleep entry not found.")]),
        { st with sleep := sleep' })
    | (some updated, sleep') =>
      (.ok (.jobj [("success", .jbool true), ("entry", .jobj
        ([("id", .jnum (updated.id : Rat)), ("date", .jstr updated.date)] ++
          optNum "sleep_score" updated.sleep_score ++
          optNum "time_slept_minutes" updated.time_slept_minutes ++
          optNum "deep_sleep_minutes" updated.deep_sleep_minutes ++
          optNum "rem_sleep_minutes" updated.rem_sleep_minutes ++
          optNum "rhr" updated.rhr ++
          optNum "hrv" updated.hrv ++
          optNum "interruptions" updated.interruptions))]), { st with sleep := sleep' })

/-- Embedding of `ToolExecutor.createNote` (tags only when the input is an
array, each element string-coerced). -/
def ToolExecutor.createNote (env : ToolEnv) (input : Input) (st : Stores) :
    HandlerOut :=
  let title := jsString (coalesce (getField input "title") (.vstr ""))
  let content := jsString (coalesce (getField input "content") (.vstr ""))
  let category := jsString (coalesce (getField input "category") (.vstr ""))
  let tags : List String :=
    match getField input "tags" with
    | some (.varr xs) => xs.map jsString
    | _ => []
  match env.notesCreate title content category tags with
  | .error m => (.error m, st)
  | .ok path =>
    (.ok (.jobj [("success", .jbool true), ("path", .jstr path),
      ("title", .jstr title), ("category", .jstr category)]), st)

/-- Embedding of `ToolExecutor.appendToDaily`. -/
def ToolExecutor.appendToDaily (env : ToolEnv) (input : Input) (st : Stores) :
    HandlerOut :=
  let content := jsString (coalesce (getField input "content") (.vstr ""))
  match env.notesAppendDaily content with
  | .error m => (.error m, st)
  | .ok _ =>
    (.ok (.jobj [("success", .jbool true), ("date", .jstr (isoDateOfMs env.now)),
      ("content_preview", .jstr (content.take 100))]), st)

/-- Embedding of `ToolExecutor.searchNotes` (first ten results). -/
def ToolExecutor.searchNotes (env : ToolEnv) (input : Input) (st : Stores) :
    HandlerOut :=
  let query := jsString (coalesce (getField input "query") (.vstr ""))
  match env.notesSearch query with
  | .error m => (.error m, st)
  | .ok results =>
    (.ok (.jobj [("query", .jstr query), ("count", .jnum (results.length : Rat)),
      ("results", .jarr ((results.take 10).map (fun r => .jobj
        [("title", .jstr r.title), ("path", .jstr r.path),
         ("excerpt", .jstr r.excerpt)])))]), st)

/-- Embedding of `ToolExecutor.getTasks`; the status argument is passed
through unchecked (a TS `as`-cast in the source). -/
def ToolExecutor.getTasks (env : ToolEnv) (input : Input) (st : Stores) :
    HandlerOut :=
  let status := getField input "status"
  let project := strOf (getField input "project")
  match env.notesTasks status project with
  | .error m => (.error m, st)
  | .ok tasks =>
    (.ok (.jobj [("count", .jnum (tasks.length : Rat)),
      ("tasks", .jarr ((tasks.take 20).map (fun t => .jobj
        ([("title", .jstr t.title), ("status", .jstr t.status),
          ("path", .jstr t.path)] ++ optStr "project" t.project))))]), st)

/-- Embedding of `ToolExecutor.getCategories`. -/
def ToolExecutor.getCategories (env : ToolEnv) (st : Stores) : HandlerOut :=
  match env.notesCategories () with
  | .error m => (.error m, st)
  | .ok categories =>
    (.ok (.jobj [("count", .jnum (categories.length : Rat)),
      ("categories", .jarr (categories.map (fun c => .jobj
        [("path", .jstr c.path), ("name", .jstr c.name),
         ("tags", .jarr (c.tags.map Json.jstr))])))]), st)

/-- Embedding of `ToolExecutor.readNote`. -/
def ToolExecutor.readNote (env : ToolEnv) (input : Input) (st : Stores) :
    HandlerOut :=
  let path := jsString (coalesce (getField input "path") (.vstr ""))
  match env.notesRead path with
  | .error m => (.error m, st)
  | .ok none =>
    (.ok (.jobj [("found", .jbool false),
      ("message", .jstr ("Note not found: " ++ path))]), st)
  | .ok (some note) =>
    (.ok (.jobj [("found", .jbool true), ("title", .jstr note.title),
      ("path", .jstr note.path), ("content", .jstr note.content)]), st)

/-- Embedding of `ToolExecutor.readDailyNote`. -/
def ToolExecutor.readDailyNote (env : ToolEnv) (input : Input) (st : Stores) :
    HandlerOut :=
  let date := strOf (getField input "date")
  match env.notesReadDaily date with
  | .error m => (.error m, st)
  | .ok none =>
    let targetDate := date.getD (isoDateOfMs env.now)
    (.ok (.jobj [("found", .jbool false),
      ("message", .jstr ("No daily note found for " ++ targetDate))]), st)
  | .ok (some note) =>
    (.ok (.jobj [("found", .jbool true), ("title", .jstr note.title),
      ("path", .jstr note.path), ("content", .jstr note.content)]), st)

/-- Embedding of `ToolExecutor.listNotes` (first fifty entries). -/
def ToolExecutor.listNotes (env : ToolEnv) (input : Input) (st : Stores) :
    HandlerOut :=
  let folder := strOf (getField input "folder")
  match env.notesList folder with
  | .error m => (.error m, st)
  | .ok notes =>
    (.ok (.jobj [("folder", .jstr (folder.getD "(all)")),
      ("count", .jnum (notes.length : Rat)),
      ("notes", .jarr ((notes.take 50).map (fun n => .jobj
        ([("title", .jstr n.title), ("path", .jstr n.path)] ++
          optStr "modified_at" (n.modifiedAt.map isoOfMs)))))]), st)

/-- Embedding of `ToolExecutor.updateNote`. -/
def ToolExecutor.updateNote (env : ToolEnv) (input : Input) (st : Stores) :
    HandlerOut :=
  let path := jsString (coalesce (getField input "path") (.vstr ""))
  let content := jsString (coalesce (getField input "content") (.vstr ""))
  match env.notesUpdate path content with
  | .error m => (.error m, st)
  | .ok _ =>
    (.ok (.jobj [("success", .jbool true), ("path", .jstr path),
      ("content_length", .jnum (content.length : Rat))]), st)

/-- Embedding of `ToolExecutor.fetchUrl`: its own try/catch turns fetch
failures and timeouts into `error` payloads rather than throws; bodies
are truncated to 12000 characters with an explicit flag. -/
def ToolExecutor.fetchUrl (env : ToolEnv) (input : Input) (st : Stores) :
    HandlerOut :=
  let url := jsString (coalesce (getField input "url") (.vstr ""))
  if url = "" then
    (.ok (.jobj [("error", .jstr "No URL provided")]), st)
  else
    match env.fetch url with
    | .error m =>
      (.ok (.jobj [("error", .jstr ("Failed to fetch URL: " ++ m)), ("url", .jstr url)]), st)
    | .ok resp =>
      if ¬ resp.ok then
        (.ok (.jobj [("error", .jstr ("Failed to fetch: HTTP " ++ toString resp.status)),
          ("url", .jstr url)]), st)
      else
        let title := env.extractTitle resp.body
        let text := env.extractTextFromHtml resp.body
        let truncated := text.length > 12000
        let content := if truncated then text.take 12000 ++ "\n\n[Content truncated...]" else text
        (.ok (.jobj [("success", .jbool true), ("url", .jstr url), ("title", .jstr title),
          ("content_length", .jnum (content.length : Rat)),
          ("truncated", .jbool truncated), ("content", .jstr content)]), st)

/-- Embedding of `ToolExecutor.readChatHistory` (limit clamped to 1..50,
default 6; negative offsets treated as 0). -/
def ToolExecutor.readChatHistory (env : ToolEnv) (chatId : String) (input : Input)
    (st : Stores) : HandlerOut :=
  let limit := numOf (getField input "limit")
  let offset := (numOf (getField input "offset")).getD 0
  let effectiveLimit : Rat :=
    match limit with
    | some l => if l > 0 then min l 50 else 6
    | none => 6
  let effectiveOffset : Rat := if offset ≥ 0 then offset else 0
  let messages := env.getConversation chatId effectiveLimit effectiveOffset
  if messages.length = 0 then
    (.ok (.jobj [("found", .jbool false),
      ("message", .jstr (if effectiveOffset > 0 then "No older messages in that range."
        else "No chat history yet."))]), st)
  else
    (.ok (.jobj [("found", .jbool true), ("count", .jnum (messages.length : Rat)),
      ("messages", .jarr (messages.map (fun m => .jobj
        [("role", .jstr m.role), ("content", .jstr m.content),
         ("timestamp", .jstr (isoOfMs m.timestamp))])))]), st)

/-- The switch of `ToolExecutor.execute`: `some` is a matching case,
`none` is the default (unknown tool) branch. -/
def ToolExecutor.dispatch (env : ToolEnv) (chatId : String) (toolName : String)
    (input : Input) (st : Stores) : Option HandlerOut :=
  match toolName with
  | "log_meal" => some (ToolExecutor.logMeal env chatId input st)
  | "get_meals_today" => some (ToolExecutor.getMealsToday env chatId st)
  | "get_meals_range" => some (ToolExecutor.getMealsRange chatId input st)
  | "delete_meal" => some (ToolExecutor.deleteMeal chatId input st)
  | "update_meal" => some (ToolExecutor.updateMeal chatId input st)
  | "get_health_profile" => some (ToolExecutor.getHealthProfile chatId st)
  | "set_health_profile" => some (ToolExecutor.setHealthProfile env chatId input st)
  | "get_newsletters" => some (ToolExecutor.getNewsletters env input st)
  | "log_sleep" => some (ToolExecutor.logSleep env chatId input st)
  | "get_sleep_last_night" => some (ToolExecutor.getSleepLastNight env chatId st)
  | "get_sleep_range" => some (ToolExecutor.getSleepRange env chatId input st)
  | "delete_sleep" => some (ToolExecutor.deleteSleep chatId input st)
  | "update_sleep" => some (ToolExecutor.updateSleep chatId input st)
  | "set_location" => some (ToolExecutor.setLocation chatId input st)
  | "create_note" => some (ToolExecutor.createNote env input st)
  | "append_to_daily" => some (ToolExecutor.appendToDaily env input st)
  | "search_notes" => some (ToolExecutor.searchNotes env input st)
  | "get_tasks" => some (ToolExecutor.getTasks env input st)
  | "get_categories" => some (ToolExecutor.getCategories env st)
  | "read_note" => some (ToolExecutor.readNote env input st)
  | "read_daily_note" => some (ToolExecutor.readDailyNote env input st)
  | "list_notes" => some (ToolExecutor.listNotes env input st)
  | "update_note" => some (ToolExecutor.updateNote env input st)
  | "fetch_url" => some (ToolExecutor.fetchUrl env input st)
  | "read_chat_history" => some (ToolExecutor.readChatHistory env chatId input st)
  | _ => none

/-- The names whose `execute` branch calls an `async` handler and returns
its promise without `await` (every other branch calls a synchronous,
string-returning handler). -/
def ASYNC_TOOLS : List String :=
  ["get_newsletters", "get_sleep_last_night", "get_sleep_range",
   "create_note", "append_to_daily", "search_notes", "get_tasks",
   "get_categories", "read_note", "read_daily_note", "list_notes",
   "update_note", "fetch_url"]

/-- Embedding of `ToolExecutor.execute`: dispatch on the tool name; the
default branch reports the unknown tool, and the surrounding try/catch
turns a synchronous handler's throw into a `Tool execution failed`
payload.  An async handler's promise, however, is returned without
`await`: the `try` block completes normally and the promise's later
rejection is adopted by `execute` itself, so for the `ASYNC_TOOLS`
branches a handler error escapes the catch and rejects `execute` outward
(`.error`).  The second component is the persisted store state, which
survives either way. -/
def ToolExecutor.execute (env : ToolEnv) (chatId : String) (toolName : String)
    (input : Input) (st : Stores) : Except String String × Stores :=
  match ToolExecutor.dispatch env chatId toolName input st with
  | none => (.ok (Json.jobj [("error", .jstr ("Unknown tool: " ++ toolName))]).serialize, st)
  | some (.ok j, st') => (.ok j.serialize, st')
  | some (.error m, st') =>
    if toolName ∈ ASYNC_TOOLS then (.error m, st')
    else (.ok (Json.jobj [("error", .jstr ("Tool execution failed: " ++ m))]).serialize, st')

/-! Agent-loop layer (`src/core/agent/AgenticAssistant.ts`). -/

/-- Stop reason of a tool-use model call. -/
inductive StopReason where
  | endTurn
  | toolUse
  | maxTokens
deriving DecidableEq, Repr

/-- Tool call requested by the model. -/
structure ToolCall where
  id : String
  name : String
  input : Input

/-- Conversation content block (`ContentBlock` in `LLMPort`). -/
inductive CBlock where
  | text (t : String)
  | toolUse (id : String) (name : String) (input : Input)
  | toolResult (toolUseId : String) (content : String)
  | image (url : String)

/-- Token usage of one model call. -/
structure Usage where
  inputTokens : Nat
  outputTokens : Nat
deriving DecidableEq, Repr

/-- Response of `generateWithTools` (`ToolUseResponse` in `LLMPort`). -/
structure ToolUseResponse where
  stopReason : StopReason
  text : Option String := none
  toolCalls : Option (List ToolCall) := none
  contentBlocks : List CBlock := []
  usage : Option Usage := none

/-- Message content: plain text or a list of content blocks. -/
inductive MsgContent where
  | ofText (s : String)
  | blocks (bs : List CBlock)

/-- One conversation turn. -/
structure AMessage where
  role : String
  content : MsgContent

/-- The model provider as seen by a loop: one call per (growing) message
list, either a response or a thrown provider error.  Tools and system
prompt are fixed per loop and absorbed into the oracle. -/
abbrev LLMOracle := List AMessage → Except String ToolUseResponse

/-- Iteration ceiling of the primary agent loop. -/
def MAX_TOOL_ITERATIONS : Nat := 10

/-- Usage accumulation (`if (response.usage) totalUsage += ...`). -/
def addUsage (u : Usage) (r : Option Usage) : Usage :=
  match r with
  | some v => ⟨u.inputTokens + v.inputTokens, u.outputTokens + v.outputTokens⟩
  | none => u

/-- Sequential execution of one model turn's tool calls: each call goes
through `ToolExecutor.execute` with the state threaded left to right, and
its result becomes a `tool_result` block tagged with the call's id, in
request order.  The loop body awaits each `execute`, so an outward
rejection aborts the assembly and propagates, with the writes already
performed kept. -/
def execToolCalls (env : ToolEnv) (chatId : String) (st : Stores) :
    List ToolCall → Except String (List CBlock) × Stores
  | [] => (.ok [], st)
  | tc :: rest =>
    match ToolExecutor.execute env chatId tc.name tc.input st with
    | (.error e, st1) => (.error e, st1)
    | (.ok result, st1) =>
      match execToolCalls env chatId st1 rest with
      | (.error e, st2) => (.error e, st2)
      | (.ok others, st2) => (.ok (CBlock.toolResult tc.id result :: others), st2)

/-- Outcome of the agent loop. -/
structure LoopOut where
  response : Except String ToolUseResponse
  messages : List AMessage
  stores : Stores
  modelCalls : Nat
  usage : Usage

/-- The `while (stopReason === 'tool_use' && iterations < MAX)` loop of
`handleMessage`, with `fuel` the remaining iterations (`MAX - iterations`).
Each iteration appends the assistant turn verbatim, then one user turn
holding all tool results, and re-invokes the model. -/
def agentLoopAux (oracle : LLMOracle) (env : ToolEnv) (chatId : String) :
    Nat → List AMessage → ToolUseResponse → Stores → Usage → Nat → LoopOut
  | 0, messages, response, st, usage, calls =>
    ⟨.ok response, messages, st, calls, usage⟩
  | fuel + 1, messages, response, st, usage, calls =>
    if response.stopReason = .toolUse then
      match response.toolCalls with
      | none => ⟨.ok response, messages, st, calls, usage⟩
      | some [] => ⟨.ok response, messages, st, calls, usage⟩
      | some (tc :: tcs) =>
        let messages1 := messages ++ [⟨"assistant", .blocks response.contentBlocks⟩]
        match execToolCalls env chatId st (tc :: tcs) with
        | (.error e, st1) => ⟨.error e, messages1, st1, calls, usage⟩
        | (.ok results, st1) =>
          let messages2 := messages1 ++ [⟨"user", .blocks results⟩]
          match oracle messages2 with
          | .error e => ⟨.error e, messages2, st1, calls + 1, usage⟩
          | .ok response1 =>
            agentLoopAux oracle env chatId fuel messages2 response1 st1
              (addUsage usage response1.usage) (calls + 1)
    else ⟨.ok response, messages, st, calls, usage⟩

/-- Inbound chat message (`IncomingMessage`). -/
structure IncomingMessage where
  from_ : String
  text : String
  hasMedia : Bool := false
  mediaType : Option String := none
  mediaUrl : Option String := none

/-- Fallback caption for a photo sent with no text. -/
def PHOTO_DEFAULT_TEXT : String :=
  "What is this meal? Please estimate the calories and macros and log it."

/-- Fixed fallback reply when the model ends with no text. -/
def FALLBACK_REPLY : String :=
  "I processed your request but have nothing to say."

/-- Fixed apology sent when message handling throws. -/
def APOLOGY_REPLY : String :=
  "Sorry, I encountered an error processing your message. Please try again."

/-- The initial user content of `handleMessage`: for a photo message whose
media id resolves, an image block plus a text block (caption or default
prompt); otherwise the plain text (resolution failures fall back to
text-only). -/
def buildUserContent (mediaUrlOf : String → Except String (Option String))
    (message : IncomingMessage) : MsgContent :=
  match message.mediaType, message.mediaUrl with
  | some "photo", some fileId =>
    if message.hasMedia ∧ fileId ≠ "" then
      match mediaUrlOf fileId with
      | .ok (some imageUrl) =>
        .blocks [.image imageUrl,
          .text (if message.text = "" then PHOTO_DEFAULT_TEXT else message.text)]
      | .ok none => .ofText message.text
      | .error _ => .ofText message.text
    else .ofText message.text
  | _, _ => .ofText message.text

/-- Outcome of `handleMessage`: thrown error or the reply text, plus the
final conversation, state (the reply already recorded as sent on
success), model-call count, and accumulated usage. -/
structure HandleOut where
  outcome : Except String String
  final : Option ToolUseResponse
  messages : List AMessage
  stores : Stores
  modelCalls : Nat
  usage : Usage

/-- Embedding of `AgenticAssistant.handleMessage`: one initial model call,
then the tool loop; the final reply is the model's text or the fixed
fallback, and is sent to the chat. -/
def AgenticAssistant.handleMessage (oracle : LLMOracle) (env : ToolEnv)
    (mediaUrlOf : String → Except String (Option String))
    (message : IncomingMessage) (st : Stores) : HandleOut :=
  let chatId := message.from_
  let messages : List AMessage := [⟨"user", buildUserContent mediaUrlOf message⟩]
  match oracle messages with
  | .error e => ⟨.error e, none, messages, st, 1, ⟨0, 0⟩⟩
  | .ok response =>
    let usage0 := addUsage ⟨0, 0⟩ response.usage
    let out := agentLoopAux oracle env chatId MAX_TOOL_ITERATIONS messages response st usage0 1
    match out.response with
    | .error e => ⟨.error e, none, out.messages, out.stores, out.modelCalls, out.usage⟩
    | .ok final =>
      let finalText := final.text.getD FALLBACK_REPLY
      ⟨.ok finalText, some final, out.messages,
        { out.stores with sent := out.stores.sent ++ [(chatId, finalText)] },
        out.modelCalls, out.usage⟩

/-- Embedding of the `onMessage` handler installed by
`setupMessageHandler`: a throw anywhere in handling is caught and answered
with the fixed apology, so the user always receives exactly one reply. -/
def AgenticAssistant.onMessage (oracle : LLMOracle) (env : ToolEnv)
    (mediaUrlOf : String → Except String (Option String))
    (message : IncomingMessage) (st : Stores) : HandleOut :=
  let h := AgenticAssistant.handleMessage oracle env mediaUrlOf message st
  match h.outcome with
  | .ok _ => h
  | .error _ =>
    { h with
      outcome := .ok APOLOGY_REPLY
      stores := { h.stores with sent := h.stores.sent ++ [(message.from_, APOLOGY_REPLY)] } }

/-! Digest composer (`src/core/digest/MorningDigestService.ts`). -/

/-- Weather-summary prompt template. -/
def WEATHER_PROMPT : String :=
  "You are summarizing weather for a morning digest.\n\nGiven the weather data below, provide:\n1. OBJECTIVE: A brief factual summary (temperature, conditions, rain chance). Use the same units as the data (e.g. °C for temperature).\n2. SUBJECTIVE: Practical advice (e.g. \"Take an umbrella\", \"Good day for a run\").\n\nKeep it to 2-3 sentences. Be concise and factual.\n\nWeather data:\n\x7b\x7bDATA\x7d\x7d"

/-- Health-focus prompt template for the digest sub-agent loop. -/
def HEALTH_PROMPT : String :=
  "You are a health coach assistant creating a brief morning health focus.\n\nToday is \x7b\x7bDATE\x7d\x7d. Use the tools to:\n1. Get meals for the last 3 days (get_meals_range: start_date and end_date covering the past 3 days)\n2. Get sleep data for the last 3 days (get_sleep_range: same date range)\n\nThen provide a brief, actionable health focus for today based on what you find. Cite the data: use actual numbers (calories, protein, sleep score, time asleep, RHR, HRV, interruptions) when available. Keep it to 2-3 sentences.\n\nExamples (quantitatively supported):\n- \"Last 3 days averaged ~1,200 cal and 42g protein; aim for at least one protein-rich meal today to close the gap toward ~60g.\"\n- \"Sleep averaged 6h 20m with scores 72, 68, 81 and 4 interruptions/night; aim for 7h and a consistent wind-down to reduce interruptions.\"\n- \"RHR 58–62 and HRV 45–52 ms over the past 3 nights—recovery looks stable; keep hydration and meal timing consistent today.\"\n\nIf no data is available, give one sentence of general wellness advice."

/-- Headline-curation prompt template. -/
def RSS_PROMPT : String :=
  "You are a news curator for a morning digest.\n\nFrom the headlines below, pick exactly 5 must-read articles. Assign each pick a category label that is creative, distinctive, and interesting—not a topic area (avoid \"Geopolitics\", \"Tech\", \"Economics\", \"Security\", etc.).\n\nCategories should surprise or delight: name the *vibe*, *lens*, or *reason to read* rather than the subject. Examples of the kind of label you want: \"Read this with coffee\", \"The one that reframes everything\", \"Contrarian take\", \"Best with 20 minutes to spare\", \"Might change your mind\", \"Underrated angle\", \"The rabbit hole\", \"Worth the long read\". Invent new ones every time; never default to dull topic buckets.\n\nFor each pick, provide:\n- category: A unique, interesting label (2–5 words). No topic-area names.\n- headline: The article title\n- pitch: Why to read it (under 10 words)\n- link: The URL\n\nOutput only the JSON array—no markdown code fences, no surrounding text, no explanation. Valid example:\n[\x7b\"category\":\"...\", \"headline\":\"...\", \"pitch\":\"...\", \"link\":\"...\"\x7d]\n\nHeadlines:\n\x7b\x7bDATA\x7d\x7d"

/-- Aggregated headline (`fetchAll` item, fields the digest reads). -/
structure RSSItem where
  source : String
  title : String
  link : String

/-- One curated pick parsed from the model's JSON array. -/
structure Pick where
  category : String
  headline : String
  pitch : String
  link : String

/-- Injected collaborators of `MorningDigestService`: the weather port
(its structured forecast together with its two-space stringification is
treated as an opaque string, since it only flows into a prompt), the
haiku text model, the tool-use model for the health sub-loop, the RSS
aggregator, and `JSON.parse` specialised to the expected pick-array shape
(`none` models a parse exception). -/
structure DigestEnv where
  weather : JNum → JNum → Except String String
  haikuGenerate : String → Nat → Rat → Except String String
  healthOracle : LLMOracle
  rssFetch : Unit → Except String (List RSSItem)
  jsonParsePicks : String → Option (List Pick)

/-- Embedding of `buildWeatherSection`: `null` (= `none`) when either
coordinate is absent, otherwise the trimmed haiku summary of the fetched
forecast. -/
def MorningDigestService.buildWeatherSection (denv : DigestEnv)
    (lat lon : Option JNum) : Except String (Option String) :=
  match lat, lon with
  | some la, some lo =>
    match denv.weather la lo with
    | .error e => .error e
    | .ok weatherJson =>
      match denv.haikuGenerate (WEATHER_PROMPT.replace "\x7b\x7bDATA\x7d\x7d" weatherJson) 200 (2 / 5) with
      | .error e => .error e
      | .ok text => .ok (some (jsTrim text))
  | _, _ => .ok none

/-- Embedding of `executeHealthTool`: the two read-only range queries of
the digest sub-loop; anything else reports an unknown tool. -/
def MorningDigestService.executeHealthTool (env : ToolEnv) (chatId : String)
    (st : Stores) (name : String) (input : Input) : Except String String :=
  let startDate := jsString (coalesce (getField input "start_date") (.vstr ""))
  let endDate := jsString (coalesce (getField input "end_date") (.vstr ""))
  if name = "get_meals_range" then
    let meals := MealRepository.getByDateRange st.meals chatId startDate endDate
    if meals.length = 0 then
      .ok (Json.serialize (.jobj [("found", .jbool false),
        ("message", .jstr "No meals logged in this range")]))
    else
      let totalCalories := meals.foldl (fun s m => s + m.estimatedCalories.getD 0) 0
      let totalProtein := meals.foldl (fun s m => s + m.estimatedProtein.getD 0) 0
      .ok (Json.serialize (.jobj [("found", .jbool true),
        ("meal_count", .jnum (meals.length : Rat)),
        ("totals", .jobj [("calories", .jnum totalCalories), ("protein", .jnum totalProtein)]),
        ("meals", .jarr (meals.map (fun m => .jobj
          ([("date", .jstr m.date), ("description", .jstr m.description)] ++
            optNum "calories" m.estimatedCalories ++
            optNum "protein" m.estimatedProtein))))]))
  else if name = "get_sleep_range" then
    match env.sleepRange startDate endDate chatId with
    | .error m => .error m
    | .ok sleepData =>
      if sleepData.length = 0 then
        .ok (Json.serialize (.jobj [("found", .jbool false),
          ("message", .jstr "No sleep data in this range")]))
      else
        .ok (Json.serialize (.jobj [("found", .jbool true),
          ("nights", .jnum (sleepData.length : Rat)),
          ("sessions", .jarr (sleepData.map (fun s => .jobj
            ([("date", .jstr s.date), ("score", .jnum s.sleepScore),
              ("time_slept", .jstr (toString ⌊s.timeAsleep / 60⌋ ++ "h " ++
                ratToString (jsMod s.timeAsleep 60) ++ "m")),
              ("deep_minutes", .jnum s.deepSleepMinutes),
              ("rem_minutes", .jnum s.remSleepMinutes),
              ("rhr", .jnum s.restingHeartRate),
              ("hrv", .jnum s.hrv)] ++
              optNum "interruptions" s.interruptions))))]))
  else
    .ok (Json.serialize (.jobj [("error", .jstr ("Unknown tool: " ++ name))]))

/-- Sequential tool-result assembly of the digest sub-loop (state is
read-only there); a thrown tool error aborts and propagates. -/
def healthToolResults (env : ToolEnv) (chatId : String) (st : Stores) :
    List ToolCall → Except String (List CBlock)
  | [] => .ok []
  | tc :: rest =>
    match MorningDigestService.executeHealthTool env chatId st tc.name tc.input with
    | .error e => .error e
    | .ok result =>
      match healthToolResults env chatId st rest with
      | .error e => .error e
      | .ok others => .ok (CBlock.toolResult tc.id result :: others)

/-- Iteration ceiling of the digest health sub-loop. -/
def HEALTH_MAX_ITERATIONS : Nat := 3

/-- The digest sub-loop (`while (stopReason === 'tool_use' && iterations <
maxIterations)` in `buildHealthSection`), with remaining-iteration fuel;
returns the final response (or thrown error) and the model-call count. -/
def healthLoopAux (denv : DigestEnv) (env : ToolEnv) (chatId : String) (st : Stores) :
    Nat → List AMessage → ToolUseResponse → Nat → Except String ToolUseResponse × Nat
  | 0, _, response, calls => (.ok response, calls)
  | fuel + 1, messages, response, calls =>
    if response.stopReason = .toolUse then
      match response.toolCalls with
      | none => (.ok response, calls)
      | some [] => (.ok response, calls)
      | some (tc :: tcs) =>
        let messages1 := messages ++ [⟨"assistant", .blocks response.contentBlocks⟩]
        match healthToolResults env chatId st (tc :: tcs) with
        | .error e => (.error e, calls)
        | .ok results =>
          let messages2 := messages1 ++ [⟨"user", .blocks results⟩]
          match denv.healthOracle messages2 with
          | .error e => (.error e, calls + 1)
          | .ok response1 => healthLoopAux denv env chatId st fuel messages2 response1 (calls + 1)
    else (.ok response, calls)

/-- Embedding of `buildHealthSection`: the mini agent loop over the two
health tools; the section text is the final response's trimmed text or the
fixed wellness default.  Also returns the number of model calls made. -/
def MorningDigestService.buildHealthSection (denv : DigestEnv) (env : ToolEnv)
    (chatId : String) (st : Stores) : Except String String × Nat :=
  let today := isoDateOfMs env.now
  let prompt := HEALTH_PROMPT.replace "\x7b\x7bDATE\x7d\x7d" today
  let messages : List AMessage := [⟨"user", .ofText prompt⟩]
  match denv.healthOracle messages with
  | .error e => (.error e, 1)
  | .ok response =>
    match healthLoopAux denv env chatId st HEALTH_MAX_ITERATIONS messages response 1 with
    | (.error e, calls) => (.error e, calls)
    | (.ok final, calls) =>
      (.ok ((final.text.map jsTrim).getD "Focus on balanced nutrition and good sleep today."), calls)

/-- Embedding of `buildRSSSection`: fetch, curate via the model, format the
parsed picks, and fall back to the raw model text on a parse failure. -/
def MorningDigestService.buildRSSSection (denv : DigestEnv) : Except String String :=
  match denv.rssFetch () with
  | .error e => .error e
  | .ok items =>
    if items.length = 0 then .ok "No new articles today."
    else
      let headlinesText := String.intercalate "\n"
        ((items.take 50).map (fun item =>
          "- [" ++ item.source ++ "] " ++ item.title ++ "\n  " ++ item.link))
      let prompt := RSS_PROMPT.replace "\x7b\x7bDATA\x7d\x7d" headlinesText
      match denv.haikuGenerate prompt 600 (1 / 2) with
      | .error e => .error e
      | .ok text =>
        match denv.jsonParsePicks (jsTrim text) with
        | some picks =>
          .ok (String.intercalate "\n\n" (picks.map (fun p =>
            p.category ++ ": " ++ p.headline ++ "\n" ++ p.pitch ++ "\n" ++ p.link)))
        | none => .ok (jsTrim text)

/-- Digest header line. -/
def DIGEST_HEADER : String := "☀️ Good morning! Here\x27s your daily brief:\n"

/-- Fixed weather placeholder (failure or no stored location). -/
def WEATHER_PLACEHOLDER : String := "🌤️ WEATHER\nSet your location to get weather updates."

/-- Fixed health placeholder. -/
def HEALTH_PLACEHOLDER : String := "💪 TODAY\x27S FOCUS\nStay hydrated and move your body today."

/-- Fixed headlines placeholder. -/
def RSS_PLACEHOLDER : String := "📰 MUST-READ\nCouldn\x27t fetch headlines today."

/-- Section combination of `triggerDigest`: a fulfilled, truthy (non-empty)
value keeps its content under the fixed emoji header, anything else is the
fixed placeholder; the list is joined with newlines. -/
def composeDigest (weatherSection : Except String (Option String))
    (healthSection rssSection : Except String String) : String :=
  let w := match weatherSection with
    | .ok (some v) => if v ≠ "" then "🌤️ WEATHER\n" ++ v else WEATHER_PLACEHOLDER
    | _ => WEATHER_PLACEHOLDER
  let h := match healthSection with
    | .ok v => if v ≠ "" then "💪 TODAY\x27S FOCUS\n" ++ v else HEALTH_PLACEHOLDER
    | _ => HEALTH_PLACEHOLDER
  let r := match rssSection with
    | .ok v => if v ≠ "" then "📰 MUST-READ\n" ++ v else RSS_PLACEHOLDER
    | _ => RSS_PLACEHOLDER
  String.intercalate "\n" [DIGEST_HEADER, w, "", h, "", r]

/-- Outcome of `triggerDigest`: the composed digest and the outbound
messages (always exactly the one digest message). -/
structure DigestOut where
  digest : String
  sent : List (String × String)

/-- Embedding of `MorningDigestService.triggerDigest`: look up stored
coordinates, settle the three independent sections (`Promise.allSettled`),
compose with per-section placeholders, and send the digest once. -/
def MorningDigestService.triggerDigest (denv : DigestEnv) (env : ToolEnv)
    (chatId : String) (st : Stores) : DigestOut :=
  let prefs := UserPreferencesRepository.get st.prefs chatId
  let weatherSection := MorningDigestService.buildWeatherSection denv
    (prefs.bind (·.lat)) (prefs.bind (·.lon))
  let healthSection := (MorningDigestService.buildHealthSection denv env chatId st).1
  let rssSection := MorningDigestService.buildRSSSection denv
  let digest := composeDigest weatherSection healthSection rssSection
  ⟨digest, [(chatId, digest)]⟩

/-! Tool catalog (`src/core/agent/tools.ts`).  Each `ToolDefinition` also
carries a natural-language description and a JSON input schema consumed
only by the model provider; the claims concern the names, so the catalog
is embedded as its ordered name list. -/

/-- Ordered names of the `ALL_TOOLS` catalog. -/
def ALL_TOOLS : List String :=
  ["log_meal", "get_meals_today", "get_meals_range",
   "get_health_profile", "set_health_profile",
   "get_newsletters",
   "log_sleep", "get_sleep_last_night", "get_sleep_range",
   "set_location",
   "create_note", "append_to_daily", "search_notes", "get_tasks",
   "get_categories", "read_note", "read_daily_note", "list_notes", "update_note",
   "fetch_url"]

/-! Concrete collaborator behaviours used to evaluate the embedding on
closed inputs. -/

/-- Benign stub collaborators: every port succeeds with empty data, the
clock is fixed at 2023-11-14T22:13:20Z, and no digest service is wired. -/
def stubToolEnv : ToolEnv :=
  { now := 1700000000000
    notesCreate := fun _ _ _ _ => .ok "Notes/new.md"
    notesAppendDaily := fun _ => .ok ()
    notesSearch := fun _ => .ok []
    notesTasks := fun _ _ => .ok []
    notesCategories := fun _ => .ok []
    notesRead := fun _ => .ok none
    notesReadDaily := fun _ => .ok none
    notesList := fun _ => .ok []
    notesUpdate := fun _ _ => .ok ()
    emailNewsletters := fun _ => .ok []
    sleepLastNight := fun _ => .ok none
    sleepRange := fun _ _ _ => .ok []
    fetch := fun _ => .error "network disabled"
    extractTitle := fun _ => ""
    extractTextFromHtml := fun h => h
    getConversation := fun _ _ _ => []
    digestTrigger := none }

/-- Stub collaborators whose email port throws. -/
def failingEmailToolEnv : ToolEnv :=
  { stubToolEnv with emailNewsletters := fun _ => .error "boom" }

/-- Benign digest collaborators: the health model answers immediately with
advice, the aggregator has no headlines, and the weather port throws. -/
def stubDigestEnv : DigestEnv :=
  { weather := fun _ _ => .error "no api key"
    haikuGenerate := fun _ _ _ => .ok "Sunny."
    healthOracle := fun _ => .ok ⟨.endTurn, some "Drink water.", none, [], none⟩
    rssFetch := fun _ => .ok []
    jsonParsePicks := fun _ => none }

/-! Claim theorems. -/

/-- C9: every tool name in the `ALL_TOOLS` catalog is unique, and every
cataloged name is matched by an executor branch — `ToolExecutor.execute`'s
switch dispatches it to a handler instead of falling through to the
unknown-tool default (`dispatch` yields `some`). -/
theorem catalog_names_unique_and_executor_covers :
    ALL_TOOLS.Nodup ∧
    ∀ name ∈ ALL_TOOLS, ∀ env chatId input st,
      (ToolExecutor.dispatch env chatId name input st).isSome = true := by
  refine ⟨by decide, ?_⟩
  intro name h env chatId input st
  fin_cases h <;> rfl

/-- Witness for C9 at a concrete cataloged name. -/
theorem catalog_names_unique_and_executor_covers_witness :
    (ToolExecutor.dispatch stubToolEnv "chat-1" "log_meal" [] {}).isSome = true :=
  catalog_names_unique_and_executor_covers.2 "log_meal" (by decide) stubToolEnv "chat-1" [] {}

/-- Counterexample for C1 as stated: the switch returns the async
handlers' promises without `await`, so their rejections escape the
try/catch — with an email port that throws, `get_newsletters` rejects
`execute` outward instead of resolving with a caught
`Tool execution failed` payload. -/
theorem execute_never_rejects_counterexample :
    (ToolExecutor.execute failingEmailToolEnv "chat-1" "get_newsletters" [] {}).1 =
      .error "boom" := by
  rfl

/-- C1 (amended): `execute` resolves with a `JSON.stringify`-serialized
string for every name outside the switch (the `Unknown tool` payload) and
for every name with a synchronous branch — a synchronous handler's throw
is caught as the `Tool execution failed` payload.  An async branch
(`ASYNC_TOOLS`), returned without `await`, instead rejects `execute`
outward on failure, and every outward rejection comes from such a
branch. -/
theorem execute_sync_failures_caught :
    ∀ env chatId toolName input st,
      (¬ toolName ∈ ASYNC_TOOLS →
        ∃ j : Json, (ToolExecutor.execute env chatId toolName input st).1 = .ok j.serialize) ∧
      (ToolExecutor.dispatch env chatId toolName input st = none →
        (ToolExecutor.execute env chatId toolName input st).1 =
          .ok (Json.jobj [("error", .jstr ("Unknown tool: " ++ toolName))]).serialize) ∧
      (∀ m st', ToolExecutor.dispatch env chatId toolName input st = some (.error m, st') →
        ¬ toolName ∈ ASYNC_TOOLS →
        (ToolExecutor.execute env chatId toolName input st).1 =
          .ok (Json.jobj [("error", .jstr ("Tool execution failed: " ++ m))]).serialize) ∧
      (∀ e, (ToolExecutor.execute env chatId toolName input st).1 = .error e →
        toolName ∈ ASYNC_TOOLS) := by
  intro env chatId toolName input st
  unfold ToolExecutor.execute
  cases hd : ToolExecutor.dispatch env chatId toolName input st with
  | none =>
    exact ⟨fun _ => ⟨Json.jobj [("error", .jstr ("Unknown tool: " ++ toolName))], rfl⟩,
      fun _ => rfl, fun m st' h => by simp at h, fun e h => by simp at h⟩
  | some res =>
    obtain ⟨r, st1⟩ := res
    cases r with
    | ok j =>
      exact ⟨fun _ => ⟨j, rfl⟩, fun h => by simp at h, fun m st' h => by simp at h,
        fun e h => by simp at h⟩
    | error m =>
      dsimp only
      refine ⟨fun ha => ?_, fun h => by simp at h, fun m' st' h ha => ?_, fun e h => ?_⟩
      · rw [if_neg ha]
        exact ⟨Json.jobj [("error", .jstr ("Tool execution failed: " ++ m))], rfl⟩
      · obtain ⟨hm, _⟩ := by simpa using h
        rw [if_neg ha, hm]
      · by_contra ha
        rw [if_neg ha] at h
        simp at h

/-- Witness for amended C1: an unknown tool name resolves with the
structured unknown-tool payload, and a synchronous branch resolves with
some serialized payload. -/
theorem execute_sync_failures_caught_witness :
    (ToolExecutor.execute stubToolEnv "chat-1" "frobnicate" [] {}).1 =
      .ok (Json.jobj [("error", .jstr "Unknown tool: frobnicate")]).serialize ∧
    ∃ j : Json, (ToolExecutor.execute stubToolEnv "chat-1" "delete_meal" [] {}).1 =
      .ok j.serialize :=
  ⟨(execute_sync_failures_caught stubToolEnv "chat-1" "frobnicate" [] {}).2.1 rfl,
   (execute_sync_failures_caught stubToolEnv "chat-1" "delete_meal" [] {}).1 (by decide)⟩

/-- Projection of a content-block list to its tool-result ids: defined
exactly when every block is a `tool_result` block. -/
def toolResultIds : List CBlock → Option (List String)
  | [] => some []
  | .toolResult i _ :: bs => (toolResultIds bs).map (fun l => i :: l)
  | _ :: _ => none

/-- C3: when a model turn requests tool calls, the single user turn built
for the next model call consists of exactly one `tool_result` block per
request, tagged with the requested call ids in request order (so N
requests yield N results, no duplicates, no omissions); this holds for
the primary loop's `execToolCalls` and for the digest sub-loop's
`healthToolResults` whenever the assembly completes (an escaping tool
rejection aborts the turn, so no partial turn is ever sent). -/
theorem tool_results_match_requests :
    (∀ env chatId st tcs bs,
      (execToolCalls env chatId st tcs).1 = .ok bs →
      toolResultIds bs = some (tcs.map (·.id))) ∧
    (∀ env chatId st tcs bs,
      healthToolResults env chatId st tcs = .ok bs →
      toolResultIds bs = some (tcs.map (·.id))) := by
  constructor
  · intro env chatId st tcs
    induction tcs generalizing st with
    | nil =>
      intro bs h
      obtain rfl := Except.ok.inj h
      rfl
    | cons tc rest ih =>
      intro bs h
      rw [execToolCalls] at h
      rcases hx : ToolExecutor.execute env chatId tc.name tc.input st with ⟨r, st1⟩
      rw [hx] at h
      cases r with
      | error e => simp at h
      | ok result =>
        dsimp only at h
        rcases hy : execToolCalls env chatId st1 rest with ⟨r2, st2⟩
        rw [hy] at h
        cases r2 with
        | error e => simp at h
        | ok others =>
          dsimp only at h
          obtain rfl := Except.ok.inj h
          simp [toolResultIds, ih st1 others (by rw [hy])]
  · intro env chatId st tcs bs h
    induction tcs generalizing bs with
    | nil =>
      simp [healthToolResults] at h
      subst h
      rfl
    | cons tc rest ih =>
      rw [healthToolResults] at h
      cases h1 : MorningDigestService.executeHealthTool env chatId st tc.name tc.input with
      | error e => rw [h1] at h; cases h
      | ok result =>
        rw [h1] at h
        cases h2 : healthToolResults env chatId st rest with
        | error e => rw [h2] at h; cases h
        | ok others =>
          rw [h2] at h
          cases h
          simp [toolResultIds, ih others h2]

/-- Witness for C3: a two-call turn for the primary loop, and a completed
digest-side assembly. -/
theorem tool_results_match_requests_witness :
    (∃ bs, (execToolCalls stubToolEnv "chat-1" {}
        [⟨"toolu_a", "get_meals_today", []⟩, ⟨"toolu_b", "nonsense", []⟩]).1 = .ok bs ∧
      toolResultIds bs = some ["toolu_a", "toolu_b"]) ∧
    toolResultIds
        [CBlock.toolResult "toolu_c"
          (Json.serialize (.jobj [("found", .jbool false),
            ("message", .jstr "No meals logged in this range")]))] =
      some ["toolu_c"] :=
  ⟨⟨_, rfl, tool_results_match_requests.1 stubToolEnv "chat-1" {}
      [⟨"toolu_a", "get_meals_today", []⟩, ⟨"toolu_b", "nonsense", []⟩] _ rfl⟩,
   tool_results_match_requests.2 stubToolEnv "chat-1" {}
      [⟨"toolu_c", "get_meals_range", []⟩] _ rfl⟩

/-- C10: the meal queries behind `get_meals_today` and `get_meals_range`
return exactly the stored rows whose chat id equals the caller's or is
NULL; in particular a NULL-chat row is included in every chat's results,
so read isolation does not extend to such rows. -/
theorem meal_queries_include_null_chat_rows :
    (∀ st chatId date m,
      m ∈ MealRepository.getByDate st chatId date ↔
        ∃ r ∈ st.rows, (r.chat_id = some chatId ∨ r.chat_id = none) ∧ r.date = date ∧
          m = rowToMeal r) ∧
    (∀ st chatId startDate endDate m,
      m ∈ MealRepository.getByDateRange st chatId startDate endDate ↔
        ∃ r ∈ st.rows, (r.chat_id = some chatId ∨ r.chat_id = none) ∧
          startDate ≤ r.date ∧ r.date ≤ endDate ∧ m = rowToMeal r) ∧
    (∀ st chatId date r, r ∈ st.rows → r.chat_id = none → r.date = date →
      rowToMeal r ∈ MealRepository.getByDate st chatId date) := by
  refine ⟨?_, ?_, ?_⟩
  · intro st chatId date m
    simp only [MealRepository.getByDate, List.mem_map, mem_sortBy, List.mem_filter,
      mealDateFilter, decide_eq_true_eq]
    constructor
    · rintro ⟨r, ⟨hr, hp⟩, hm⟩
      exact ⟨r, hr, hp.1, hp.2, hm.symm⟩
    · rintro ⟨r, hr, h1, h2, hm⟩
      exact ⟨r, ⟨hr, h1, h2⟩, hm.symm⟩
  · intro st chatId startDate endDate m
    simp only [MealRepository.getByDateRange, List.mem_map, mem_sortBy, List.mem_filter,
      decide_eq_true_eq]
    constructor
    · rintro ⟨r, ⟨hr, hp⟩, hm⟩
      exact ⟨r, hr, hp.1, hp.2.1, hp.2.2, hm.symm⟩
    · rintro ⟨r, hr, h1, h2, h3, hm⟩
      exact ⟨r, ⟨hr, h1, h2, h3⟩, hm.symm⟩
  · intro st chatId date r hr hnull hdate
    simp only [MealRepository.getByDate, List.mem_map, mem_sortBy, List.mem_filter,
      mealDateFilter, decide_eq_true_eq]
    exact ⟨r, ⟨hr, Or.inr hnull, hdate⟩, rfl⟩

/-- Concrete meal row stored with a NULL chat id. -/
def nullChatRow : MealRow :=
  { id := 7, chat_id := none, date := "2024-01-01", description := "mystery",
    created_at := 0 }

/-- Store holding only the NULL-chat row. -/
def nullChatStore : MealStore :=
  { rows := [nullChatRow], nextId := 8 }

/-- Witness for C10: the NULL-chat row surfaces in two different chats'
`getByDate` results. -/
theorem meal_queries_include_null_chat_rows_witness :
    rowToMeal nullChatRow ∈ MealRepository.getByDate nullChatStore "alice" "2024-01-01" ∧
    rowToMeal nullChatRow ∈ MealRepository.getByDate nullChatStore "bob" "2024-01-01" :=
  ⟨meal_queries_include_null_chat_rows.2.2 nullChatStore "alice" "2024-01-01" nullChatRow
      (by simp [nullChatStore]) rfl rfl,
   meal_queries_include_null_chat_rows.2.2 nullChatStore "bob" "2024-01-01" nullChatRow
      (by simp [nullChatStore]) rfl rfl⟩

/-- C7: deleting a meal id that does not exist among the calling chat's
stored meals resolves with exactly the JSON string
`{"success":false,"message":"Meal not found or already deleted."}` — a
reported failure, not a silent no-op or a thrown error (the branch is
synchronous, so `.ok` is the only possible shape). -/
theorem delete_meal_missing_id_reports_failure :
    ∀ env chatId input st q,
      numOf (getField input "meal_id") = some q →
      (∀ r ∈ st.meals.rows, ¬ ((r.id : Rat) = q ∧ r.chat_id = some chatId)) →
      (ToolExecutor.execute env chatId "delete_meal" input st).1 =
        .ok "\x7b\"success\":false,\"message\":\"Meal not found or already deleted.\"\x7d" := by
  intro env chatId input st q hq hnone
  have hany : (st.meals.rows.any
      (fun r => decide ((r.id : Rat) = q ∧ r.chat_id = some chatId))) = false := by
    rw [List.any_eq_false]
    intro r hr
    simpa using hnone r hr
  have hdel : ToolExecutor.deleteMeal chatId input st =
      (.ok (.jobj [("success", .jbool false),
        ("message", .jstr "Meal not found or already deleted.")]),
        { st with meals := (MealRepository.delete st.meals chatId q).2 }) := by
    rw [ToolExecutor.deleteMeal, hq]
    simp only [MealRepository.delete, hany]
    simp
  unfold ToolExecutor.execute
  rw [show ToolExecutor.dispatch env chatId "delete_meal" input st =
      some (ToolExecutor.deleteMeal chatId input st) from rfl, hdel]
  rfl

/-- Witness for C7: id 42 against an empty meal store. -/
theorem delete_meal_missing_id_reports_failure_witness :
    (ToolExecutor.execute stubToolEnv "chat-1" "delete_meal"
        [("meal_id", .vnum (.finite 42))] {}).1 =
      .ok "\x7b\"success\":false,\"message\":\"Meal not found or already deleted.\"\x7d" :=
  delete_meal_missing_id_reports_failure stubToolEnv "chat-1"
    [("meal_id", .vnum (.finite 42))] {} 42 rfl (by intro r hr; cases hr)

/-- Each loop entry with `fuel` remaining iterations adds at most `fuel`
model calls to the count accumulated so far. -/
theorem agentLoopAux_calls_le (oracle : LLMOracle) (env : ToolEnv) (chatId : String) :
    ∀ fuel messages response st usage calls,
      (agentLoopAux oracle env chatId fuel messages response st usage calls).modelCalls ≤
        calls + fuel := by
  intro fuel
  induction fuel with
  | zero =>
    intro messages response st usage calls
    exact Nat.le_add_right _ _
  | succ n ih =>
    intro messages response st usage calls
    rw [agentLoopAux]
    split
    · split
      · exact Nat.le_add_right _ _
      · exact Nat.le_add_right _ _
      · split
        · exact Nat.le_add_right _ _
        · dsimp only
          split
          · exact (by omega : calls + 1 ≤ calls + (n + 1))
          · exact Nat.le_trans (ih _ _ _ _ (calls + 1)) (by omega)
    · exact Nat.le_add_right _ _

/-- Same bound for the digest sub-loop. -/
theorem healthLoopAux_calls_le (denv : DigestEnv) (env : ToolEnv) (chatId : String)
    (st : Stores) :
    ∀ fuel messages response calls,
      (healthLoopAux denv env chatId st fuel messages response calls).2 ≤ calls + fuel := by
  intro fuel
  induction fuel with
  | zero =>
    intro messages response calls
    exact Nat.le_add_right _ _
  | succ n ih =>
    intro messages response calls
    rw [healthLoopAux]
    split
    · split
      · exact Nat.le_add_right _ _
      · exact Nat.le_add_right _ _
      · split
        · exact Nat.le_add_right _ _
        · dsimp only
          split
          · exact (by omega : calls + 1 ≤ calls + (n + 1))
          · exact Nat.le_trans (ih _ _ (calls + 1)) (by omega)
    · exact Nat.le_add_right _ _

/-- Projection of `handleMessage` onto its model-call count. -/
theorem handleMessage_modelCalls (oracle : LLMOracle) (env : ToolEnv)
    (mediaUrlOf : String → Except String (Option String))
    (message : IncomingMessage) (st : Stores) :
    (AgenticAssistant.handleMessage oracle env mediaUrlOf message st).modelCalls =
      match oracle [⟨"user", buildUserContent mediaUrlOf message⟩] with
      | .error _ => 1
      | .ok response =>
        (agentLoopAux oracle env message.from_ MAX_TOOL_ITERATIONS
          [⟨"user", buildUserContent mediaUrlOf message⟩] response st
          (addUsage ⟨0, 0⟩ response.usage) 1).modelCalls := by
  rw [AgenticAssistant.handleMessage]
  cases oracle [⟨"user", buildUserContent mediaUrlOf message⟩] with
  | error e => rfl
  | ok response =>
    dsimp only
    split <;> rfl

/-- Projection of `buildHealthSection` onto its model-call count. -/
theorem buildHealthSection_modelCalls (denv : DigestEnv) (env : ToolEnv)
    (chatId : String) (st : Stores) :
    (MorningDigestService.buildHealthSection denv env chatId st).2 =
      match denv.healthOracle
          [⟨"user", .ofText (HEALTH_PROMPT.replace "\x7b\x7bDATE\x7d\x7d" (isoDateOfMs env.now))⟩] with
      | .error _ => 1
      | .ok response =>
        (healthLoopAux denv env chatId st HEALTH_MAX_ITERATIONS
          [⟨"user", .ofText (HEALTH_PROMPT.replace "\x7b\x7bDATE\x7d\x7d" (isoDateOfMs env.now))⟩]
          response 1).2 := by
  rw [MorningDigestService.buildHealthSection]
  cases denv.healthOracle
      [⟨"user", .ofText (HEALTH_PROMPT.replace "\x7b\x7bDATE\x7d\x7d" (isoDateOfMs env.now))⟩] with
  | error e => rfl
  | ok response =>
    dsimp only
    rcases hh : healthLoopAux denv env chatId st HEALTH_MAX_ITERATIONS
        [⟨"user", .ofText (HEALTH_PROMPT.replace "\x7b\x7bDATE\x7d\x7d" (isoDateOfMs env.now))⟩]
        response 1 with ⟨res, calls⟩
    cases res <;> rfl

/-- C2: every run of the primary agent loop makes at most the iteration
ceiling (10) plus 1 model calls, and every run of the digest health
sub-loop makes at most its ceiling (3) plus 1; both loop functions are
total, so each loop terminates even when the model requests tool use on
every call. -/
theorem loops_bounded_model_calls :
    (∀ oracle env mediaUrlOf message st,
      (AgenticAssistant.handleMessage oracle env mediaUrlOf message st).modelCalls ≤
        MAX_TOOL_ITERATIONS + 1) ∧
    (∀ denv env chatId st,
      (MorningDigestService.buildHealthSection denv env chatId st).2 ≤
        HEALTH_MAX_ITERATIONS + 1) := by
  constructor
  · intro oracle env mediaUrlOf message st
    rw [handleMessage_modelCalls]
    cases oracle [⟨"user", buildUserContent mediaUrlOf message⟩] with
    | error e => exact (by decide : (1 : Nat) ≤ MAX_TOOL_ITERATIONS + 1)
    | ok response =>
      exact Nat.le_trans
        (agentLoopAux_calls_le oracle env message.from_ MAX_TOOL_ITERATIONS
          [⟨"user", buildUserContent mediaUrlOf message⟩] response st
          (addUsage ⟨0, 0⟩ response.usage) 1)
        (by decide)
  · intro denv env chatId st
    rw [buildHealthSection_modelCalls]
    cases denv.healthOracle
        [⟨"user", .ofText (HEALTH_PROMPT.replace "\x7b\x7bDATE\x7d\x7d" (isoDateOfMs env.now))⟩] with
    | error e => exact (by decide : (1 : Nat) ≤ HEALTH_MAX_ITERATIONS + 1)
    | ok response =>
      exact Nat.le_trans
        (healthLoopAux_calls_le denv env chatId st HEALTH_MAX_ITERATIONS
          [⟨"user", .ofText (HEALTH_PROMPT.replace "\x7b\x7bDATE\x7d\x7d" (isoDateOfMs env.now))⟩]
          response 1)
        (by decide)

/-! Frame reasoning for chat isolation (C6). -/

/-- Rows of the meal table belonging to chat `c`. -/
def mealRowsOf (c : String) (st : Stores) : List MealRow :=
  st.meals.rows.filter (fun r => r.chat_id = some c)

/-- Rows of the sleep table belonging to chat `c`. -/
def sleepRowsOf (c : String) (st : Stores) : List SleepRow :=
  st.sleep.rows.filter (fun r => r.chat_id = c)

/-- Health-profile rows belonging to chat `c`. -/
def healthRowsOf (c : String) (st : Stores) : List HealthProfileRow :=
  st.health.filter (fun r => r.chat_id = c)

/-- Preference rows belonging to chat `c`. -/
def prefRowsOf (c : String) (st : Stores) : List PrefRow :=
  st.prefs.filter (fun r => r.chat_id = c)

theorem filter_append_singleton {α : Type} (p : α → Bool) (l : List α) (a : α)
    (h : p a = false) : (l ++ [a]).filter p = l.filter p := by
  simp [List.filter_append, List.filter, h]

theorem filter_filter_not {α : Type} (p : α → Bool) (q : α → Prop) [DecidablePred q]
    (l : List α) (h : ∀ r ∈ l, p r = true → ¬ q r) :
    (l.filter (fun r => ¬ q r)).filter p = l.filter p := by
  induction l with
  | nil => rfl
  | cons a as ih =>
    have ih' := ih (fun r hr => h r (List.mem_cons_of_mem a hr))
    simp only [List.filter_filter, decide_not] at ih' ⊢
    rw [List.filter_cons, List.filter_cons]
    by_cases hq : q a
    · have hp : p a = false := by
        rcases hp : p a with _ | _
        · rfl
        · exact absurd hq (h a (List.mem_cons_self a as) hp)
      simp [hp, hq, ih']
    · rcases hp : p a with _ | _ <;> simp [hp, hq, ih']

theorem filter_map_invariant {α : Type} (p : α → Bool) (g : α → α) (l : List α)
    (h1 : ∀ r ∈ l, p (g r) = p r) (h2 : ∀ r ∈ l, p r = true → g r = r) :
    (l.map g).filter p = l.filter p := by
  induction l with
  | nil => rfl
  | cons a as ih =>
    have ih' := ih (fun r hr => h1 r (List.mem_cons_of_mem a hr))
      (fun r hr => h2 r (List.mem_cons_of_mem a hr))
    rcases hp : p a with _ | _
    · have hga : p (g a) = false := by rw [h1 a (List.mem_cons_self a as), hp]
      simp [List.filter, hp, hga, ih']
    · have hga : p (g a) = true := by rw [h1 a (List.mem_cons_self a as), hp]
      rw [List.map_cons, List.filter_cons_of_pos hga, List.filter_cons_of_pos hp,
        h2 a (List.mem_cons_self a as) hp, ih']

/-- Read-only handlers leave the stores untouched. -/
theorem readonly_handlers_preserve_stores (env : ToolEnv) (chatId : String)
    (input : Input) (st : Stores) :
    (ToolExecutor.getMealsToday env chatId st).2 = st ∧
    (ToolExecutor.getMealsRange chatId input st).2 = st ∧
    (ToolExecutor.getHealthProfile chatId st).2 = st ∧
    (ToolExecutor.getNewsletters env input st).2 = st ∧
    (ToolExecutor.getSleepLastNight env chatId st).2 = st ∧
    (ToolExecutor.getSleepRange env chatId input st).2 = st ∧
    (ToolExecutor.createNote env input st).2 = st ∧
    (ToolExecutor.appendToDaily env input st).2 = st ∧
    (ToolExecutor.searchNotes env input st).2 = st ∧
    (ToolExecutor.getTasks env input st).2 = st ∧
    (ToolExecutor.getCategories env st).2 = st ∧
    (ToolExecutor.readNote env input st).2 = st ∧
    (ToolExecutor.readDailyNote env input st).2 = st ∧
    (ToolExecutor.listNotes env input st).2 = st ∧
    (ToolExecutor.updateNote env input st).2 = st ∧
    (ToolExecutor.fetchUrl env input st).2 = st ∧
    (ToolExecutor.readChatHistory env chatId input st).2 = st := by
  refine ⟨rfl, rfl, ?_, ?_, ?_, ?_, ?_, ?_, ?_, ?_, ?_, ?_, ?_, ?_, ?_, ?_, ?_⟩
  · rw [ToolExecutor.getHealthProfile]; (repeat' split) <;> rfl
  · rw [ToolExecutor.getNewsletters]
    (repeat' split) <;> first | rfl | (dsimp only; split <;> rfl)
  · rw [ToolExecutor.getSleepLastNight]; (repeat' split) <;> rfl
  · rw [ToolExecutor.getSleepRange]; (repeat' split) <;> rfl
  · rw [ToolExecutor.createNote]; (repeat' split) <;> rfl
  · rw [ToolExecutor.appendToDaily]; (repeat' split) <;> rfl
  · rw [ToolExecutor.searchNotes]; (repeat' split) <;> rfl
  · rw [ToolExecutor.getTasks]; (repeat' split) <;> rfl
  · rw [ToolExecutor.getCategories]; (repeat' split) <;> rfl
  · rw [ToolExecutor.readNote]; (repeat' split) <;> rfl
  · rw [ToolExecutor.readDailyNote]; (repeat' split) <;> rfl
  · rw [ToolExecutor.listNotes]; (repeat' split) <;> rfl
  · rw [ToolExecutor.updateNote]; (repeat' split) <;> rfl
  · rw [ToolExecutor.fetchUrl]; (repeat' split) <;> rfl
  · rw [ToolExecutor.readChatHistory]; (repeat' split) <;> rfl

/-- Chat-`c` view of the four stores. -/
def chatDataOf (c : String) (st : Stores) :
    List MealRow × List SleepRow × List HealthProfileRow × List PrefRow :=
  (mealRowsOf c st, sleepRowsOf c st, healthRowsOf c st, prefRowsOf c st)

/-- Inserting a meal for the bound chat does not change another chat's rows. -/
theorem mealCreate_filter_frame (now : Int) (ms : MealStore) (mi : MealInput)
    (c : String) (hc : c ≠ mi.chatId) :
    ((MealRepository.create now ms mi).2.rows.filter (fun r => r.chat_id = some c)) =
      ms.rows.filter (fun r => r.chat_id = some c) := by
  rw [MealRepository.create]
  dsimp only
  apply filter_append_singleton
  simp only [decide_eq_false_iff_not, Option.some.injEq]
  exact fun hh => hc hh.symm

/-- Deleting by id scoped to the bound chat does not change another
chat's rows. -/
theorem mealDelete_filter_frame (ms : MealStore) (chatId : String) (q : Rat)
    (c : String) (hc : c ≠ chatId) :
    ((MealRepository.delete ms chatId q).2.rows.filter (fun r => r.chat_id = some c)) =
      ms.rows.filter (fun r => r.chat_id = some c) := by
  rw [MealRepository.delete]
  dsimp only
  apply filter_filter_not
  intro r _ hp hq
  rw [decide_eq_true_eq] at hp hq
  exact hc (by simpa [hp] using hq.2)

/-- Deleting the bound chat's most recent meal does not change another
chat's rows (rowids are unique in the table). -/
theorem mealDeleteLast_filter_frame (ms : MealStore) (chatId : String)
    (c : String) (hc : c ≠ chatId) (hwf : (ms.rows.map (·.id)).Nodup) :
    ((MealRepository.deleteLast ms chatId).2.rows.filter (fun r => r.chat_id = some c)) =
      ms.rows.filter (fun r => r.chat_id = some c) := by
  rw [MealRepository.deleteLast]
  cases hs : sortBy dateCreatedDesc (ms.rows.filter (fun r => r.chat_id = some chatId)) with
  | nil => rfl
  | cons row rest =>
    dsimp only
    have hrowMem : row ∈ ms.rows.filter (fun r => r.chat_id = some chatId) := by
      have : row ∈ sortBy dateCreatedDesc
          (ms.rows.filter (fun r => r.chat_id = some chatId)) := by
        rw [hs]; exact List.mem_cons_self row rest
      exact (mem_sortBy _ _ _).mp this
    rw [List.mem_filter, decide_eq_true_eq] at hrowMem
    apply filter_filter_not
    intro r hr hp hq
    have hne : r ≠ row := by
      intro e
      rw [e, hrowMem.2, decide_eq_true_eq] at hp
      exact hc (Option.some.inj hp).symm
    exact hne (List.inj_on_of_nodup_map hwf hr hrowMem.1 hq)

/-- Updating a meal scoped to the bound chat does not change another
chat's rows. -/
theorem mealUpdate_filter_frame (ms : MealStore) (chatId : String) (q : Rat)
    (u : MealUpdate) (c : String) (hc : c ≠ chatId) :
    ((MealRepository.update ms chatId q u).2.rows.filter (fun r => r.chat_id = some c)) =
      ms.rows.filter (fun r => r.chat_id = some c) := by
  rw [MealRepository.update]
  cases hf : ms.rows.find? (fun r => (r.id : Rat) = q ∧ r.chat_id = some chatId) with
  | none => rfl
  | some row =>
    dsimp only
    apply filter_map_invariant
    · intro r _
      by_cases hit : ((r.id : Rat) = q ∧ r.chat_id = some chatId)
      · have : (applyMealUpdate u r).chat_id = r.chat_id := rfl
        simp [hit, this]
      · simp [hit]
    · intro r _ hp
      rw [decide_eq_true_eq] at hp
      have hit : ¬ ((r.id : Rat) = q ∧ r.chat_id = some chatId) := by
        intro hh
        exact hc (by simpa [hp] using hh.2)
      simp [hit]

/-- Inserting a sleep entry for the bound chat does not change another
chat's rows. -/
theorem sleepCreate_filter_frame (now : Int) (ss : SleepStore) (si : SleepLogInput)
    (c : String) (hc : c ≠ si.chatId) :
    ((SleepLogRepository.create now ss si).2.rows.filter (fun r => r.chat_id = c)) =
      ss.rows.filter (fun r => r.chat_id = c) := by
  rw [SleepLogRepository.create]
  dsimp only
  apply filter_append_singleton
  simp only [decide_eq_false_iff_not]
  exact fun hh => hc hh.symm

/-- Sleep delete-by-id frame. -/
theorem sleepDelete_filter_frame (ss : SleepStore) (chatId : String) (q : Rat)
    (c : String) (hc : c ≠ chatId) :
    ((SleepLogRepository.delete ss chatId q).2.rows.filter (fun r => r.chat_id = c)) =
      ss.rows.filter (fun r => r.chat_id = c) := by
  rw [SleepLogRepository.delete]
  dsimp only
  apply filter_filter_not
  intro r _ hp hq
  rw [decide_eq_true_eq] at hp hq
  exact hc (hp.symm.trans hq.2)

/-- Sleep delete-most-recent frame. -/
theorem sleepDeleteLast_filter_frame (ss : SleepStore) (chatId : String)
    (c : String) (hc : c ≠ chatId) (hwf : (ss.rows.map (·.id)).Nodup) :
    ((SleepLogRepository.deleteLast ss chatId).2.rows.filter (fun r => r.chat_id = c)) =
      ss.rows.filter (fun r => r.chat_id = c) := by
  rw [SleepLogRepository.deleteLast]
  cases hs : sortBy sleepDateCreatedDesc (ss.rows.filter (fun r => r.chat_id = chatId)) with
  | nil => rfl
  | cons row rest =>
    dsimp only
    have hrowMem : row ∈ ss.rows.filter (fun r => r.chat_id = chatId) := by
      have : row ∈ sortBy sleepDateCreatedDesc
          (ss.rows.filter (fun r => r.chat_id = chatId)) := by
        rw [hs]; exact List.mem_cons_self row rest
      exact (mem_sortBy _ _ _).mp this
    rw [List.mem_filter, decide_eq_true_eq] at hrowMem
    apply filter_filter_not
    intro r hr hp hq
    have hne : r ≠ row := by
      intro e
      rw [e, hrowMem.2, decide_eq_true_eq] at hp
      exact hc hp.symm
    exact hne (List.inj_on_of_nodup_map hwf hr hrowMem.1 hq)

/-- Sleep update frame. -/
theorem sleepUpdate_filter_frame (ss : SleepStore) (chatId : String) (q : Rat)
    (u : SleepUpdate) (c : String) (hc : c ≠ chatId) :
    ((SleepLogRepository.update ss chatId q u).2.rows.filter (fun r => r.chat_id = c)) =
      ss.rows.filter (fun r => r.chat_id = c) := by
  rw [SleepLogRepository.update]
  cases hf : ss.rows.find? (fun r => (r.id : Rat) = q ∧ r.chat_id = chatId) with
  | none => rfl
  | some row =>
    dsimp only
    apply filter_map_invariant
    · intro r _
      by_cases hit : ((r.id : Rat) = q ∧ r.chat_id = chatId)
      · have : (applySleepUpdate u r).chat_id = r.chat_id := rfl
        simp [hit, this]
      · simp [hit]
    · intro r _ hp
      rw [decide_eq_true_eq] at hp
      have hit : ¬ ((r.id : Rat) = q ∧ r.chat_id = chatId) := by
        intro hh
        exact hc (hp.symm.trans hh.2)
      simp [hit]

/-- Health-profile upsert frame. -/
theorem healthUpsert_filter_frame (now : Int) (rows : List HealthProfileRow)
    (chatId : String) (h w : Option Rat) (g : Option String) (a : Option Rat)
    (c : String) (hc : c ≠ chatId) :
    ((HealthProfileRepository.upsert now rows chatId h w g a).2.filter
        (fun r => r.chat_id = c)) =
      rows.filter (fun r => r.chat_id = c) := by
  rw [HealthProfileRepository.upsert]
  cases HealthProfileRepository.get rows chatId with
  | none =>
    dsimp only
    apply filter_append_singleton
    simp only [decide_eq_false_iff_not]
    exact fun hh => hc hh.symm
  | some existing =>
    dsimp only
    apply filter_map_invariant
    · intro r _
      by_cases hit : r.chat_id = chatId
      · have e1 : (decide (chatId = c)) = false := by
          simp only [decide_eq_false_iff_not]
          exact fun hh => hc hh.symm
        simp [hit, e1]
      · simp [hit]
    · intro r _ hp
      rw [decide_eq_true_eq] at hp
      have hit : ¬ (r.chat_id = chatId) := by
        rw [hp]
        exact fun hh => hc hh
      simp [hit]

/-- Preferences upsert frame. -/
theorem prefsUpsert_filter_frame (rows : List PrefRow) (chatId : String)
    (la lo : JNum) (c : String) (hc : c ≠ chatId) :
    ((UserPreferencesRepository.upsert rows chatId la lo).filter
        (fun r => r.chat_id = c)) =
      rows.filter (fun r => r.chat_id = c) := by
  rw [UserPreferencesRepository.upsert]
  cases UserPreferencesRepository.get rows chatId with
  | none =>
    dsimp only
    apply filter_append_singleton
    simp only [decide_eq_false_iff_not]
    exact fun hh => hc hh.symm
  | some existing =>
    dsimp only
    apply filter_map_invariant
    · intro r _
      by_cases hit : r.chat_id = chatId
      · simp [hit]
      · simp [hit]
    · intro r _ hp
      rw [decide_eq_true_eq] at hp
      have hit : ¬ (r.chat_id = chatId) := by
        rw [hp]
        exact fun hh => hc hh
      simp [hit]

theorem chatData_set_meals (c : String) (st : Stores) (X : MealStore)
    (h : X.rows.filter (fun r => r.chat_id = some c) =
      st.meals.rows.filter (fun r => r.chat_id = some c)) :
    chatDataOf c { st with meals := X } = chatDataOf c st := by
  simp only [chatDataOf, mealRowsOf, sleepRowsOf, healthRowsOf, prefRowsOf]
  rw [h]

theorem chatData_set_sleep_sent (c : String) (st : Stores) (X : SleepStore)
    (Y : List (String × String))
    (h : X.rows.filter (fun r => r.chat_id = c) =
      st.sleep.rows.filter (fun r => r.chat_id = c)) :
    chatDataOf c { st with sleep := X, sent := Y } = chatDataOf c st := by
  simp only [chatDataOf, mealRowsOf, sleepRowsOf, healthRowsOf, prefRowsOf]
  rw [h]

theorem chatData_set_sleep (c : String) (st : Stores) (X : SleepStore)
    (h : X.rows.filter (fun r => r.chat_id = c) =
      st.sleep.rows.filter (fun r => r.chat_id = c)) :
    chatDataOf c { st with sleep := X } = chatDataOf c st := by
  simp only [chatDataOf, mealRowsOf, sleepRowsOf, healthRowsOf, prefRowsOf]
  rw [h]

theorem chatData_set_health (c : String) (st : Stores) (X : List HealthProfileRow)
    (h : X.filter (fun r => r.chat_id = c) = st.health.filter (fun r => r.chat_id = c)) :
    chatDataOf c { st with health := X } = chatDataOf c st := by
  simp only [chatDataOf, mealRowsOf, sleepRowsOf, healthRowsOf, prefRowsOf]
  rw [h]

theorem chatData_set_prefs (c : String) (st : Stores) (X : List PrefRow)
    (h : X.filter (fun r => r.chat_id = c) = st.prefs.filter (fun r => r.chat_id = c)) :
    chatDataOf c { st with prefs := X } = chatDataOf c st := by
  simp only [chatDataOf, mealRowsOf, sleepRowsOf, healthRowsOf, prefRowsOf]
  rw [h]

/-- The `log_meal` handler writes only the bound chat's meal rows. -/
theorem logMeal_chatData_frame (env : ToolEnv) (chatId : String) (input : Input)
    (st : Stores) (c : String) (hc : c ≠ chatId) :
    chatDataOf c (ToolExecutor.logMeal env chatId input st).2 = chatDataOf c st := by
  rw [ToolExecutor.logMeal]
  dsimp only
  apply chatData_set_meals
  exact mealCreate_filter_frame env.now st.meals _ c hc

/-- The `delete_meal` handler writes only the bound chat's meal rows. -/
theorem deleteMeal_chatData_frame (chatId : String) (input : Input) (st : Stores)
    (c : String) (hc : c ≠ chatId) (hwf : (st.meals.rows.map (·.id)).Nodup) :
    chatDataOf c (ToolExecutor.deleteMeal chatId input st).2 = chatDataOf c st := by
  rw [ToolExecutor.deleteMeal]
  cases hq : numOf (getField input "meal_id") with
  | some mid =>
    dsimp only
    rcases hd : MealRepository.delete st.meals chatId mid with ⟨deleted, meals'⟩
    have hm : meals'.rows.filter (fun r => r.chat_id = some c) =
        st.meals.rows.filter (fun r => r.chat_id = some c) := by
      have h0 := mealDelete_filter_frame st.meals chatId mid c hc
      rw [hd] at h0
      exact h0
    split <;> exact chatData_set_meals c st meals' hm
  | none =>
    dsimp only
    rcases hd : MealRepository.deleteLast st.meals chatId with ⟨last, meals'⟩
    have hm : meals'.rows.filter (fun r => r.chat_id = some c) =
        st.meals.rows.filter (fun r => r.chat_id = some c) := by
      have h0 := mealDeleteLast_filter_frame st.meals chatId c hc hwf
      rw [hd] at h0
      exact h0
    cases last <;> exact chatData_set_meals c st meals' hm

/-- The `update_meal` handler writes only the bound chat's meal rows. -/
theorem updateMeal_chatData_frame (chatId : String) (input : Input) (st : Stores)
    (c : String) (hc : c ≠ chatId) :
    chatDataOf c (ToolExecutor.updateMeal chatId input st).2 = chatDataOf c st := by
  rw [ToolExecutor.updateMeal]
  cases hq : numOf (getField input "meal_id") with
  | none => rfl
  | some mid =>
    dsimp only
    rcases hu : MealRepository.update st.meals chatId mid
        { description := strOf (getField input "description")
          date := strOf (getField input "date")
          estimatedCalories := numOf (getField input "calories")
          estimatedProtein := numOf (getField input "protein")
          estimatedCarbs := numOf (getField input "carbs")
          estimatedFat := numOf (getField input "fat")
          mealType := strOf (getField input "meal_type")
          timeEaten := (strOf (getField input "time_eaten")).bind dateParse } with ⟨res, meals'⟩
    have hm : meals'.rows.filter (fun r => r.chat_id = some c) =
        st.meals.rows.filter (fun r => r.chat_id = some c) := by
      have h0 := mealUpdate_filter_frame st.meals chatId mid
        { description := strOf (getField input "description")
          date := strOf (getField input "date")
          estimatedCalories := numOf (getField input "calories")
          estimatedProtein := numOf (getField input "protein")
          estimatedCarbs := numOf (getField input "carbs")
          estimatedFat := numOf (getField input "fat")
          mealType := strOf (getField input "meal_type")
          timeEaten := (strOf (getField input "time_eaten")).bind dateParse } c hc
      rw [hu] at h0
      exact h0
    cases res <;> exact chatData_set_meals c st meals' hm

/-- The `log_sleep` handler writes only the bound chat's sleep rows (the
digest trigger only appends outbound messages). -/
theorem logSleep_chatData_frame (env : ToolEnv) (chatId : String) (input : Input)
    (st : Stores) (c : String) (hc : c ≠ chatId) :
    chatDataOf c (ToolExecutor.logSleep env chatId input st).2 = chatDataOf c st := by
  rw [ToolExecutor.logSleep]
  dsimp only
  apply chatData_set_sleep_sent
  exact sleepCreate_filter_frame env.now st.sleep _ c hc

/-- The `delete_sleep` handler writes only the bound chat's sleep rows. -/
theorem deleteSleep_chatData_frame (chatId : String) (input : Input) (st : Stores)
    (c : String) (hc : c ≠ chatId) (hwf : (st.sleep.rows.map (·.id)).Nodup) :
    chatDataOf c (ToolExecutor.deleteSleep chatId input st).2 = chatDataOf c st := by
  rw [ToolExecutor.deleteSleep]
  cases hq : numOf (getField input "sleep_id") with
  | some sid =>
    dsimp only
    rcases hd : SleepLogRepository.delete st.sleep chatId sid with ⟨deleted, sleep'⟩
    have hm : sleep'.rows.filter (fun r => r.chat_id = c) =
        st.sleep.rows.filter (fun r => r.chat_id = c) := by
      have h0 := sleepDelete_filter_frame st.sleep chatId sid c hc
      rw [hd] at h0
      exact h0
    split <;> exact chatData_set_sleep c st sleep' hm
  | none =>
    dsimp only
    rcases hd : SleepLogRepository.deleteLast st.sleep chatId with ⟨last, sleep'⟩
    have hm : sleep'.rows.filter (fun r => r.chat_id = c) =
        st.sleep.rows.filter (fun r => r.chat_id = c) := by
      have h0 := sleepDeleteLast_filter_frame st.sleep chatId c hc hwf
      rw [hd] at h0
      exact h0
    cases last <;> exact chatData_set_sleep c st sleep' hm

/-- The `update_sleep` handler writes only the bound chat's sleep rows. -/
theorem updateSleep_chatData_frame (chatId : String) (input : Input) (st : Stores)
    (c : String) (hc : c ≠ chatId) :
    chatDataOf c (ToolExecutor.updateSleep chatId input st).2 = chatDataOf c st := by
  rw [ToolExecutor.updateSleep]
  cases hq : numOf (getField input "sleep_id") with
  | none => rfl
  | some sid =>
    dsimp only
    rcases hu : SleepLogRepository.update st.sleep chatId sid
        { rawText := strOf (getField input "raw_text")
          date := strOf (getField input "date")
          sleepScore := numOf (getField input "sleep_score")
          timeSleptMinutes := numOf (getField input "time_slept_minutes")
          deepSleepMinutes := numOf (getField input "deep_sleep_minutes")
          remSleepMinutes := numOf (getField input "rem_sleep_minutes")
          rhr := numOf (getField input "rhr")
          hrv := numOf (getField input "hrv")
          interruptions := numOf (getField input "interruptions") } with ⟨res, sleep'⟩
    have hm : sleep'.rows.filter (fun r => r.chat_id = c) =
        st.sleep.rows.filter (fun r => r.chat_id = c) := by
      have h0 := sleepUpdate_filter_frame st.sleep chatId sid
        { rawText := strOf (getField input "raw_text")
          date := strOf (getField input "date")
          sleepScore := numOf (getField input "sleep_score")
          timeSleptMinutes := numOf (getField input "time_slept_minutes")
          deepSleepMinutes := numOf (getField input "deep_sleep_minutes")
          remSleepMinutes := numOf (getField input "rem_sleep_minutes")
          rhr := numOf (getField input "rhr")
          hrv := numOf (getField input "hrv")
          interruptions := numOf (getField input "interruptions") } c hc
      rw [hu] at h0
      exact h0
    cases res <;> exact chatData_set_sleep c st sleep' hm

/-- The `set_health_profile` handler writes only the bound chat's profile
row. -/
theorem setHealthProfile_chatData_frame (env : ToolEnv) (chatId : String)
    (input : Input) (st : Stores) (c : String) (hc : c ≠ chatId) :
    chatDataOf c (ToolExecutor.setHealthProfile env chatId input st).2 = chatDataOf c st := by
  rw [ToolExecutor.setHealthProfile]
  dsimp only
  rcases hup : HealthProfileRepository.upsert env.now st.health chatId
      (numOf (getField input "height_cm")) (numOf (getField input "weight_kg"))
      (match strOf (getField input "gender") with
        | some s => if jsTrim s ≠ "" then some (jsTrim s) else none
        | none => none)
      (numOf (getField input "age")) with ⟨profile, health'⟩
  have hm : health'.filter (fun r => r.chat_id = c) =
      st.health.filter (fun r => r.chat_id = c) := by
    have h0 := healthUpsert_filter_frame env.now st.health chatId
      (numOf (getField input "height_cm")) (numOf (getField input "weight_kg"))
      (match strOf (getField input "gender") with
        | some s => if jsTrim s ≠ "" then some (jsTrim s) else none
        | none => none)
      (numOf (getField input "age")) c hc
    rw [hup] at h0
    exact h0
  split
  · rfl
  · exact chatData_set_health c st health' hm

/-- The `set_location` handler writes only the bound chat's preference
row. -/
theorem setLocation_chatData_frame (chatId : String) (input : Input) (st : Stores)
    (c : String) (hc : c ≠ chatId) :
    chatDataOf c (ToolExecutor.setLocation chatId input st).2 = chatDataOf c st := by
  rw [ToolExecutor.setLocation]
  split <;>
    first
      | rfl
      | exact chatData_set_prefs c st _ (prefsUpsert_filter_frame st.prefs chatId _ _ c hc)

/-- C6: for every tool invocation with a model-controlled input, tool
execution writes only under the chat identity bound to the executor at
construction: any other chat's meal, sleep, health-profile and preference
rows are unchanged (rowids are unique per table, as SQLite guarantees).
No input field can redirect a write to a different chat's data. -/
theorem tools_write_only_bound_chat :
    ∀ env chatId toolName input st c,
      c ≠ chatId →
      (st.meals.rows.map (·.id)).Nodup →
      (st.sleep.rows.map (·.id)).Nodup →
      chatDataOf c (ToolExecutor.execute env chatId toolName input st).2 =
        chatDataOf c st := by
  intro env chatId toolName input st c hc hwfm hwfs
  obtain ⟨h1, h2, h3, h4, h5, h6, h7, h8, h9, h10, h11, h12, h13, h14, h15, h16, h17⟩ :=
    readonly_handlers_preserve_stores env chatId input st
  have hdisp : ∀ out, ToolExecutor.dispatch env chatId toolName input st = some out →
      chatDataOf c out.2 = chatDataOf c st := by
    intro out h
    rw [ToolExecutor.dispatch.eq_def] at h
    split at h
    · obtain rfl := Option.some.inj h
      exact logMeal_chatData_frame env chatId input st c hc
    · obtain rfl := Option.some.inj h
      rw [h1]
    · obtain rfl := Option.some.inj h
      rw [h2]
    · obtain rfl := Option.some.inj h
      exact deleteMeal_chatData_frame chatId input st c hc hwfm
    · obtain rfl := Option.some.inj h
      exact updateMeal_chatData_frame chatId input st c hc
    · obtain rfl := Option.some.inj h
      rw [h3]
    · obtain rfl := Option.some.inj h
      exact setHealthProfile_chatData_frame env chatId input st c hc
    · obtain rfl := Option.some.inj h
      rw [h4]
    · obtain rfl := Option.some.inj h
      exact logSleep_chatData_frame env chatId input st c hc
    · obtain rfl := Option.some.inj h
      rw [h5]
    · obtain rfl := Option.some.inj h
      rw [h6]
    · obtain rfl := Option.some.inj h
      exact deleteSleep_chatData_frame chatId input st c hc hwfs
    · obtain rfl := Option.some.inj h
      exact updateSleep_chatData_frame chatId input st c hc
    · obtain rfl := Option.some.inj h
      exact setLocation_chatData_frame chatId input st c hc
    · obtain rfl := Option.some.inj h
      rw [h7]
    · obtain rfl := Option.some.inj h
      rw [h8]
    · obtain rfl := Option.some.inj h
      rw [h9]
    · obtain rfl := Option.some.inj h
      rw [h10]
    · obtain rfl := Option.some.inj h
      rw [h11]
    · obtain rfl := Option.some.inj h
      rw [h12]
    · obtain rfl := Option.some.inj h
      rw [h13]
    · obtain rfl := Option.some.inj h
      rw [h14]
    · obtain rfl := Option.some.inj h
      rw [h15]
    · obtain rfl := Option.some.inj h
      rw [h16]
    · obtain rfl := Option.some.inj h
      rw [h17]
    · exact Option.noConfusion h
  rw [ToolExecutor.execute]
  cases hd : ToolExecutor.dispatch env chatId toolName input st with
  | none => rfl
  | some out =>
    obtain ⟨r, st1⟩ := out
    have hout := hdisp (r, st1) hd
    cases r with
    | ok j => exact hout
    | error m =>
      dsimp only
      split <;> exact hout

/-- Witness for C6: chat `eve`'s (empty) data is untouched by chat
`chat-1` logging a meal. -/
theorem tools_write_only_bound_chat_witness :
    chatDataOf "eve" (ToolExecutor.execute stubToolEnv "chat-1" "log_meal"
        [("description", .vstr "banana")] {}).2 = chatDataOf "eve" {} :=
  tools_write_only_bound_chat stubToolEnv "chat-1" "log_meal"
    [("description", .vstr "banana")] {} "eve" (by decide) (by decide) (by decide)

/-! Round-trip reasoning for `log_meal` / `get_meals_today` (C5). -/

/-- Summary objects always carry the stored description. -/
theorem mealSummary_lookup_description (m : Meal) :
    (mealSummaryFields m).lookup "description" = some (.jstr m.description) := by
  simp [mealSummaryFields, List.lookup]

/-- The `calories` member is present in a meal summary exactly when the
stored value is, with the stored value (never a defaulted zero). -/
theorem mealSummary_lookup_calories (m : Meal) :
    (mealSummaryFields m).lookup "calories" = m.estimatedCalories.map Json.jnum := by
  obtain ⟨i, ch, d, ds, cal, prot, cb, f, im, v, mi, te, mt, ca⟩ := m
  rcases cal with _ | q <;> rcases prot with _ | q2 <;> rcases cb with _ | q3 <;>
    rcases f with _ | q4 <;> rcases v with _ | v <;> rcases mi with _ | mi <;>
    simp [mealSummaryFields, optNum, optStr, optField, List.lookup]

/-- Same for `protein`. -/
theorem mealSummary_lookup_protein (m : Meal) :
    (mealSummaryFields m).lookup "protein" = m.estimatedProtein.map Json.jnum := by
  obtain ⟨i, ch, d, ds, cal, prot, cb, f, im, v, mi, te, mt, ca⟩ := m
  rcases cal with _ | q <;> rcases prot with _ | q2 <;> rcases cb with _ | q3 <;>
    rcases f with _ | q4 <;> rcases v with _ | v <;> rcases mi with _ | mi <;>
    simp [mealSummaryFields, optNum, optStr, optField, List.lookup]

/-- Same for `carbs`. -/
theorem mealSummary_lookup_carbs (m : Meal) :
    (mealSummaryFields m).lookup "carbs" = m.estimatedCarbs.map Json.jnum := by
  obtain ⟨i, ch, d, ds, cal, prot, cb, f, im, v, mi, te, mt, ca⟩ := m
  rcases cal with _ | q <;> rcases prot with _ | q2 <;> rcases cb with _ | q3 <;>
    rcases f with _ | q4 <;> rcases v with _ | v <;> rcases mi with _ | mi <;>
    simp [mealSummaryFields, optNum, optStr, optField, List.lookup]

/-- Same for `fat`. -/
theorem mealSummary_lookup_fat (m : Meal) :
    (mealSummaryFields m).lookup "fat" = m.estimatedFat.map Json.jnum := by
  obtain ⟨i, ch, d, ds, cal, prot, cb, f, im, v, mi, te, mt, ca⟩ := m
  rcases cal with _ | q <;> rcases prot with _ | q2 <;> rcases cb with _ | q3 <;>
    rcases f with _ | q4 <;> rcases v with _ | v <;> rcases mi with _ | mi <;>
    simp [mealSummaryFields, optNum, optStr, optField, List.lookup]

/-- Characterization of `getByDate` membership. -/
theorem mem_getByDate_iff (st : MealStore) (chatId date : String) (m : Meal) :
    m ∈ MealRepository.getByDate st chatId date ↔
      ∃ r ∈ st.rows, (r.chat_id = some chatId ∨ r.chat_id = none) ∧ r.date = date ∧
        m = rowToMeal r := by
  simp only [MealRepository.getByDate, List.mem_map, mem_sortBy, List.mem_filter,
    mealDateFilter, decide_eq_true_eq]
  constructor
  · rintro ⟨r, ⟨hr, hp⟩, hm⟩
    exact ⟨r, hr, hp.1, hp.2, hm.symm⟩
  · rintro ⟨r, hr, hh1, hh2, hm⟩
    exact ⟨r, ⟨hr, hh1, hh2⟩, hm.symm⟩

/-- A freshly inserted meal is returned by a same-day `getByDate`, with
its macro fields exactly as inserted. -/
theorem mem_getByDate_of_create (now : Int) (ms : MealStore) (mi : MealInput)
    (d : String) (hdate : mi.date = d) :
    ∃ m ∈ MealRepository.getByDate (MealRepository.create now ms mi).2 mi.chatId d,
      m.description = mi.description ∧ m.estimatedCalories = mi.estimatedCalories ∧
      m.estimatedProtein = mi.estimatedProtein ∧ m.estimatedCarbs = mi.estimatedCarbs ∧
      m.estimatedFat = mi.estimatedFat := by
  refine ⟨rowToMeal _, (mem_getByDate_iff _ _ _ _).mpr
    ⟨_, List.mem_append_right _ (List.mem_singleton_self _), Or.inl rfl, hdate, rfl⟩,
    rfl, rfl, rfl, rfl, rfl⟩

/-- The meal-store insert performed by `logMeal` (its arguments to
`MealRepository.create`). -/
def logMealInput (env : ToolEnv) (chatId : String) (input : Input) : MealInput :=
  { chatId := chatId
    date := isoDateOfMs (timeEatenOf input env.now)
    description := jsString (coalesce (getField input "description") (.vstr ""))
    estimatedCalories := numOf (getField input "calories")
    estimatedProtein := numOf (getField input "protein")
    estimatedCarbs := numOf (getField input "carbs")
    estimatedFat := numOf (getField input "fat")
    timeEaten := some (timeEatenOf input env.now)
    mealType := strOf (getField input "meal_type")
    vitamins := vitaminsOfInput input
    minerals := mineralsOfInput input }

/-- Counterexample for C5 as stated: `log_meal` accepts an explicit
`time_eaten` and derives the stored date from it, so a meal logged with
`time_eaten` `2020-01-01` (at a clock time on 2023-11-14) succeeds and is
stored under 2020-01-01 — and an immediate `get_meals_today` returns an
empty meal list, not the logged meal. -/
theorem log_meal_roundtrip_counterexample :
    (ToolExecutor.execute stubToolEnv "chat-1" "log_meal"
        [("description", .vstr "banana"), ("time_eaten", .vstr "2020-01-01")] {}).1 =
      .ok "\x7b\"success\":true,\"meal\":\x7b\"id\":1,\"description\":\"banana\",\"time_eaten\":\"2020-01-01T00:00:00.000Z\",\"date\":\"2020-01-01\"\x7d\x7d" ∧
    (ToolExecutor.execute stubToolEnv "chat-1" "get_meals_today" []
        (ToolExecutor.execute stubToolEnv "chat-1" "log_meal"
          [("description", .vstr "banana"), ("time_eaten", .vstr "2020-01-01")] {}).2).1 =
      .ok "\x7b\"date\":\"2023-11-14\",\"meals\":[],\"totals\":\x7b\"calories\":0,\"protein\":0,\"carbs\":0,\"fat\":0\x7d\x7d" := by
  constructor <;> rfl

/-- C5 (amended): whenever the meal's effective timestamp falls on the
same UTC date as the current time — in particular whenever `time_eaten`
is omitted, non-string, blank, or unparseable — logging a meal and then
immediately querying `get_meals_today` returns that meal: the reply's
`meals` array contains an object with the same description, each provided
finite numeric macro field preserved exactly, and non-numeric or omitted
macro fields absent rather than defaulted to zero. -/
theorem log_meal_roundtrip_same_day (env : ToolEnv) (chatId : String) (input : Input)
    (st : Stores)
    (H : isoDateOfMs (timeEatenOf input env.now) = isoDateOfMs env.now) :
    ∃ mealsJson totalsJson,
      (ToolExecutor.getMealsToday env chatId
          (ToolExecutor.execute env chatId "log_meal" input st).2).1 =
        .ok (.jobj [("date", .jstr (isoDateOfMs env.now)),
          ("meals", .jarr mealsJson), ("totals", totalsJson)]) ∧
      ∃ fields, Json.jobj fields ∈ mealsJson ∧
        fields.lookup "description" =
          some (.jstr (jsString (coalesce (getField input "description") (.vstr "")))) ∧
        fields.lookup "calories" = (numOf (getField input "calories")).map Json.jnum ∧
        fields.lookup "protein" = (numOf (getField input "protein")).map Json.jnum ∧
        fields.lookup "carbs" = (numOf (getField input "carbs")).map Json.jnum ∧
        fields.lookup "fat" = (numOf (getField input "fat")).map Json.jnum := by
  obtain ⟨m, hmem, hdesc, hcal, hprot, hcarb, hfat⟩ :=
    mem_getByDate_of_create env.now st.meals (logMealInput env chatId input)
      (isoDateOfMs env.now) H
  refine ⟨_, _, rfl, mealSummaryFields m, ?_, ?_, ?_, ?_, ?_, ?_⟩
  · exact List.mem_map.mpr ⟨m, hmem, rfl⟩
  · rw [mealSummary_lookup_description, hdesc]
    rfl
  · rw [mealSummary_lookup_calories, hcal]
    rfl
  · rw [mealSummary_lookup_protein, hprot]
    rfl
  · rw [mealSummary_lookup_carbs, hcarb]
    rfl
  · rw [mealSummary_lookup_fat, hfat]
    rfl

/-- Witness for amended C5: a banana with 95 kcal, a non-numeric protein,
and no `time_eaten` round-trips with calories preserved and protein,
carbs, fat absent. -/
theorem log_meal_roundtrip_same_day_witness :
    isoDateOfMs (timeEatenOf
        [("description", .vstr "banana"), ("calories", .vnum (.finite 95)),
          ("protein", .vstr "high")] stubToolEnv.now) = isoDateOfMs stubToolEnv.now ∧
    ∃ mealsJson totalsJson,
      (ToolExecutor.getMealsToday stubToolEnv "chat-1"
          (ToolExecutor.execute stubToolEnv "chat-1" "log_meal"
            [("description", .vstr "banana"), ("calories", .vnum (.finite 95)),
              ("protein", .vstr "high")] {}).2).1 =
        .ok (.jobj [("date", .jstr (isoDateOfMs stubToolEnv.now)),
          ("meals", .jarr mealsJson), ("totals", totalsJson)]) ∧
      ∃ fields, Json.jobj fields ∈ mealsJson ∧
        fields.lookup "description" = some (.jstr "banana") ∧
        fields.lookup "calories" = some (.jnum 95) ∧
        fields.lookup "protein" = none ∧
        fields.lookup "carbs" = none ∧
        fields.lookup "fat" = none :=
  ⟨rfl, log_meal_roundtrip_same_day stubToolEnv "chat-1"
    [("description", .vstr "banana"), ("calories", .vnum (.finite 95)),
      ("protein", .vstr "high")] {} rfl⟩

/-! Final-reply behaviour (C8). -/

/-- Media resolver that finds no URL. -/
def mediaNone : String → Except String (Option String) := fun _ => .ok none

/-- A plain inbound text message. -/
def plainMessage : IncomingMessage :=
  { from_ := "chat-1", text := "hello" }

/-- Model that ends immediately with a present-but-empty text. -/
def emptyTextOracle : LLMOracle :=
  fun _ => .ok ⟨.endTurn, some "", none, [], none⟩

/-- Model that ends immediately with no text at all. -/
def noTextOracle : LLMOracle :=
  fun _ => .ok ⟨.endTurn, none, none, [], none⟩

/-- Model whose every call throws. -/
def throwingOracle : LLMOracle :=
  fun _ => .error "api down"

/-- Counterexample for C8 as stated: the fallback guard is nullish
(`??`), not an emptiness check, so a model turn ending with a
present-but-empty text is sent to the user verbatim — the user is shown
the empty string. -/
theorem reply_never_empty_counterexample :
    (AgenticAssistant.onMessage emptyTextOracle stubToolEnv mediaNone
        plainMessage {}).outcome = .ok "" ∧
    (AgenticAssistant.onMessage emptyTextOracle stubToolEnv mediaNone
        plainMessage {}).stores.sent = [("chat-1", "")] := by
  constructor <;> rfl

/-- Outcome of `handleMessage`: either the model layer threw (no final
response), or the reply is the final response's text with the fixed
fallback for an absent text. -/
theorem handleMessage_spec (oracle : LLMOracle) (env : ToolEnv)
    (mediaUrlOf : String → Except String (Option String))
    (message : IncomingMessage) (st : Stores) :
    (∃ e, (AgenticAssistant.handleMessage oracle env mediaUrlOf message st).outcome = .error e ∧
      (AgenticAssistant.handleMessage oracle env mediaUrlOf message st).final = none) ∨
    (∃ final, (AgenticAssistant.handleMessage oracle env mediaUrlOf message st).final = some final ∧
      (AgenticAssistant.handleMessage oracle env mediaUrlOf message st).outcome =
        .ok (final.text.getD FALLBACK_REPLY)) := by
  rw [AgenticAssistant.handleMessage]
  cases ho : oracle [⟨"user", buildUserContent mediaUrlOf message⟩] with
  | error e => exact Or.inl ⟨e, rfl, rfl⟩
  | ok response =>
    dsimp only
    cases hlr : (agentLoopAux oracle env message.from_ MAX_TOOL_ITERATIONS
        [⟨"user", buildUserContent mediaUrlOf message⟩] response st
        (addUsage ⟨0, 0⟩ response.usage) 1).response with
    | error e => exact Or.inl ⟨e, rfl, rfl⟩
    | ok final => exact Or.inr ⟨final, rfl, rfl⟩

/-- C8 (amended): the reply is the model's final text whenever one is
present — even a present-but-empty one — and the fixed fallback exactly
when the text is absent; hence the reply is empty only when the model's
final text is the empty string.  A thrown error is answered with the
fixed apology; both fixed replies are non-empty. -/
theorem reply_is_final_text_or_fallback :
    ∀ oracle env mediaUrlOf message st,
      (∀ final,
        (AgenticAssistant.handleMessage oracle env mediaUrlOf message st).final = some final →
        (AgenticAssistant.handleMessage oracle env mediaUrlOf message st).outcome =
          .ok (final.text.getD FALLBACK_REPLY)) ∧
      (∀ final,
        (AgenticAssistant.handleMessage oracle env mediaUrlOf message st).final = some final →
        ((AgenticAssistant.handleMessage oracle env mediaUrlOf message st).outcome = .ok "" ↔
          final.text = some "")) ∧
      (∀ e,
        (AgenticAssistant.handleMessage oracle env mediaUrlOf message st).outcome = .error e →
        (AgenticAssistant.onMessage oracle env mediaUrlOf message st).outcome =
          .ok APOLOGY_REPLY) ∧
      FALLBACK_REPLY ≠ "" ∧ APOLOGY_REPLY ≠ "" := by
  intro oracle env mediaUrlOf message st
  refine ⟨?_, ?_, ?_, by decide, by decide⟩
  · intro final hf
    rcases handleMessage_spec oracle env mediaUrlOf message st with ⟨e, _, hn⟩ | ⟨f, hf2, hout⟩
    · rw [hf] at hn
      cases hn
    · rw [hf] at hf2
      obtain rfl := Option.some.inj hf2
      exact hout
  · intro final hf
    rcases handleMessage_spec oracle env mediaUrlOf message st with ⟨e, _, hn⟩ | ⟨f, hf2, hout⟩
    · rw [hf] at hn
      cases hn
    · rw [hf] at hf2
      obtain rfl := Option.some.inj hf2
      rw [hout]
      cases ht : final.text with
      | none =>
        simp only [ht, Option.getD]
        constructor
        · intro hx
          exact absurd (Except.ok.inj hx) (by decide)
        · intro hx
          cases hx
      | some t =>
        simp only [ht, Option.getD]
        constructor
        · intro hx
          rw [Except.ok.inj hx]
        · intro hx
          rw [Option.some.inj hx]
  · intro e he
    rw [AgenticAssistant.onMessage]
    dsimp only
    rw [he]

/-- Witness for amended C8: an absent final text yields the fixed
fallback; a thrown model call yields the fixed apology. -/
theorem reply_is_final_text_or_fallback_witness :
    (AgenticAssistant.handleMessage noTextOracle stubToolEnv mediaNone
        plainMessage {}).outcome = .ok FALLBACK_REPLY ∧
    (AgenticAssistant.onMessage throwingOracle stubToolEnv mediaNone
        plainMessage {}).outcome = .ok APOLOGY_REPLY :=
  ⟨(reply_is_final_text_or_fallback noTextOracle stubToolEnv mediaNone plainMessage {}).1
      ⟨.endTurn, none, none, [], none⟩ rfl,
   (reply_is_final_text_or_fallback throwingOracle stubToolEnv mediaNone plainMessage {}).2.2.1
      "api down" rfl⟩

/-! Digest section isolation (C4). -/

/-- A failed (or skipped/empty) weather slot composes to its placeholder. -/
theorem composeDigest_weather_failed (w : Except String (Option String))
    (hv rv : String) (hw : ∀ v, w = .ok (some v) → v = "")
    (h1 : hv ≠ "") (h2 : rv ≠ "") :
    composeDigest w (.ok hv) (.ok rv) =
      String.intercalate "\n" [DIGEST_HEADER, WEATHER_PLACEHOLDER, "",
        "💪 TODAY\x27S FOCUS\n" ++ hv, "", "📰 MUST-READ\n" ++ rv] := by
  cases w with
  | error e =>
    show String.intercalate "\n" [DIGEST_HEADER, WEATHER_PLACEHOLDER, "",
      if hv ≠ "" then "💪 TODAY\x27S FOCUS\n" ++ hv else HEALTH_PLACEHOLDER, "",
      if rv ≠ "" then "📰 MUST-READ\n" ++ rv else RSS_PLACEHOLDER] = _
    rw [if_pos h1, if_pos h2]
  | ok ov =>
    cases ov with
    | none =>
      show String.intercalate "\n" [DIGEST_HEADER, WEATHER_PLACEHOLDER, "",
        if hv ≠ "" then "💪 TODAY\x27S FOCUS\n" ++ hv else HEALTH_PLACEHOLDER, "",
        if rv ≠ "" then "📰 MUST-READ\n" ++ rv else RSS_PLACEHOLDER] = _
      rw [if_pos h1, if_pos h2]
    | some v =>
      have h0 : v = "" := hw v rfl
      subst h0
      show String.intercalate "\n" [DIGEST_HEADER,
        if ("" : String) ≠ "" then "🌤️ WEATHER\n" ++ "" else WEATHER_PLACEHOLDER, "",
        if hv ≠ "" then "💪 TODAY\x27S FOCUS\n" ++ hv else HEALTH_PLACEHOLDER, "",
        if rv ≠ "" then "📰 MUST-READ\n" ++ rv else RSS_PLACEHOLDER] = _
      rw [if_neg fun hx => hx rfl, if_pos h1, if_pos h2]

/-- A failed (or empty) health slot composes to its placeholder. -/
theorem composeDigest_health_failed (h : Except String String)
    (wv rv : String) (hh : ∀ v, h = .ok v → v = "")
    (h1 : wv ≠ "") (h2 : rv ≠ "") :
    composeDigest (.ok (some wv)) h (.ok rv) =
      String.intercalate "\n" [DIGEST_HEADER, "🌤️ WEATHER\n" ++ wv, "",
        HEALTH_PLACEHOLDER, "", "📰 MUST-READ\n" ++ rv] := by
  cases h with
  | error e =>
    show String.intercalate "\n" [DIGEST_HEADER,
      if wv ≠ "" then "🌤️ WEATHER\n" ++ wv else WEATHER_PLACEHOLDER, "",
      HEALTH_PLACEHOLDER, "",
      if rv ≠ "" then "📰 MUST-READ\n" ++ rv else RSS_PLACEHOLDER] = _
    rw [if_pos h1, if_pos h2]
  | ok v =>
    have h0 : v = "" := hh v rfl
    subst h0
    show String.intercalate "\n" [DIGEST_HEADER,
      if wv ≠ "" then "🌤️ WEATHER\n" ++ wv else WEATHER_PLACEHOLDER, "",
      if ("" : String) ≠ "" then "💪 TODAY\x27S FOCUS\n" ++ "" else HEALTH_PLACEHOLDER, "",
      if rv ≠ "" then "📰 MUST-READ\n" ++ rv else RSS_PLACEHOLDER] = _
    rw [if_pos h1, if_pos h2, if_neg fun hx => hx rfl]

/-- A failed (or empty) headlines slot composes to its placeholder. -/
theorem composeDigest_rss_failed (r : Except String String)
    (wv hv : String) (hr : ∀ v, r = .ok v → v = "")
    (h1 : wv ≠ "") (h2 : hv ≠ "") :
    composeDigest (.ok (some wv)) (.ok hv) r =
      String.intercalate "\n" [DIGEST_HEADER, "🌤️ WEATHER\n" ++ wv, "",
        "💪 TODAY\x27S FOCUS\n" ++ hv, "", RSS_PLACEHOLDER] := by
  cases r with
  | error e =>
    show String.intercalate "\n" [DIGEST_HEADER,
      if wv ≠ "" then "🌤️ WEATHER\n" ++ wv else WEATHER_PLACEHOLDER, "",
      if hv ≠ "" then "💪 TODAY\x27S FOCUS\n" ++ hv else HEALTH_PLACEHOLDER, "",
      RSS_PLACEHOLDER] = _
    rw [if_pos h1, if_pos h2]
  | ok v =>
    have h0 : v = "" := hr v rfl
    subst h0
    show String.intercalate "\n" [DIGEST_HEADER,
      if wv ≠ "" then "🌤️ WEATHER\n" ++ wv else WEATHER_PLACEHOLDER, "",
      if hv ≠ "" then "💪 TODAY\x27S FOCUS\n" ++ hv else HEALTH_PLACEHOLDER, "",
      if ("" : String) ≠ "" then "📰 MUST-READ\n" ++ "" else RSS_PLACEHOLDER] = _
    rw [if_pos h1, if_pos h2, if_neg fun hx => hx rfl]

/-- C4: in `triggerDigest`, when exactly one of the weather, health, or
headlines sections fails (weather "fails" also by being skipped for
missing stored coordinates or by settling to an empty string), the other
two sections' content appears unchanged in the composed message, the
failed section is replaced by its fixed placeholder line, and the digest
is sent exactly once, to the triggering chat. -/
theorem digest_isolates_failed_section (denv : DigestEnv) (env : ToolEnv)
    (chatId : String) (st : Stores) :
    ((MorningDigestService.triggerDigest denv env chatId st).sent =
      [(chatId, (MorningDigestService.triggerDigest denv env chatId st).digest)]) ∧
    (∀ hv rv,
      (MorningDigestService.buildHealthSection denv env chatId st).1 = .ok hv → hv ≠ "" →
      MorningDigestService.buildRSSSection denv = .ok rv → rv ≠ "" →
      (∀ v, MorningDigestService.buildWeatherSection denv
          ((UserPreferencesRepository.get st.prefs chatId).bind (·.lat))
          ((UserPreferencesRepository.get st.prefs chatId).bind (·.lon)) = .ok (some v) →
        v = "") →
      (MorningDigestService.triggerDigest denv env chatId st).digest =
        String.intercalate "\n" [DIGEST_HEADER, WEATHER_PLACEHOLDER, "",
          "💪 TODAY\x27S FOCUS\n" ++ hv, "", "📰 MUST-READ\n" ++ rv]) ∧
    (∀ wv rv,
      MorningDigestService.buildWeatherSection denv
          ((UserPreferencesRepository.get st.prefs chatId).bind (·.lat))
          ((UserPreferencesRepository.get st.prefs chatId).bind (·.lon)) = .ok (some wv) →
      wv ≠ "" →
      MorningDigestService.buildRSSSection denv = .ok rv → rv ≠ "" →
      (∀ v, (MorningDigestService.buildHealthSection denv env chatId st).1 = .ok v → v = "") →
      (MorningDigestService.triggerDigest denv env chatId st).digest =
        String.intercalate "\n" [DIGEST_HEADER, "🌤️ WEATHER\n" ++ wv, "",
          HEALTH_PLACEHOLDER, "", "📰 MUST-READ\n" ++ rv]) ∧
    (∀ wv hv,
      MorningDigestService.buildWeatherSection denv
          ((UserPreferencesRepository.get st.prefs chatId).bind (·.lat))
          ((UserPreferencesRepository.get st.prefs chatId).bind (·.lon)) = .ok (some wv) →
      wv ≠ "" →
      (MorningDigestService.buildHealthSection denv env chatId st).1 = .ok hv → hv ≠ "" →
      (∀ v, MorningDigestService.buildRSSSection denv = .ok v → v = "") →
      (MorningDigestService.triggerDigest denv env chatId st).digest =
        String.intercalate "\n" [DIGEST_HEADER, "🌤️ WEATHER\n" ++ wv, "",
          "💪 TODAY\x27S FOCUS\n" ++ hv, "", RSS_PLACEHOLDER]) := by
  have hd : (MorningDigestService.triggerDigest denv env chatId st).digest =
      composeDigest
        (MorningDigestService.buildWeatherSection denv
          ((UserPreferencesRepository.get st.prefs chatId).bind (·.lat))
          ((UserPreferencesRepository.get st.prefs chatId).bind (·.lon)))
        ((MorningDigestService.buildHealthSection denv env chatId st).1)
        (MorningDigestService.buildRSSSection denv) := rfl
  refine ⟨rfl, ?_, ?_, ?_⟩
  · intro hv rv hH hhne hR hrne hW
    rw [hd, hH, hR]
    exact composeDigest_weather_failed _ hv rv hW hhne hrne
  · intro wv rv hWv hwne hR hrne hH
    rw [hd, hWv, hR]
    exact composeDigest_health_failed _ wv rv hH hwne hrne
  · intro wv hv hWv hwne hHv hhne hR
    rw [hd, hWv, hHv]
    exact composeDigest_rss_failed _ wv hv hR hwne hhne

/-- Witness for C4: with no stored coordinates the weather section is
skipped, the composed digest carries the fixed location placeholder next
to the intact health and headlines content, and the message is sent
exactly once. -/
theorem digest_isolates_failed_section_witness :
    (MorningDigestService.triggerDigest stubDigestEnv stubToolEnv "chat-1" {}).digest =
      String.intercalate "\n" [DIGEST_HEADER, WEATHER_PLACEHOLDER, "",
        "💪 TODAY\x27S FOCUS\n" ++ "Drink water.", "",
        "📰 MUST-READ\n" ++ "No new articles today."] ∧
    (MorningDigestService.triggerDigest stubDigestEnv stubToolEnv "chat-1" {}).sent =
      [("chat-1",
        (MorningDigestService.triggerDigest stubDigestEnv stubToolEnv "chat-1" {}).digest)] :=
  ⟨(digest_isolates_failed_section stubDigestEnv stubToolEnv "chat-1" {}).2.1
      "Drink water." "No new articles today." rfl (by decide) rfl (by decide)
      (by
        intro v h
        rw [show MorningDigestService.buildWeatherSection stubDigestEnv
            ((UserPreferencesRepository.get ({} : Stores).prefs "chat-1").bind (·.lat))
            ((UserPreferencesRepository.get ({} : Stores).prefs "chat-1").bind (·.lon)) =
            .ok none from rfl] at h
        exact Option.noConfusion (Except.ok.inj h)),
   (digest_isolates_failed_section stubDigestEnv stubToolEnv "chat-1" {}).1⟩
